/-
Verification of the PPSSPP GLES texture cache (GPU/GLES/TextureCache.cpp)
against its natural-language specification.

The definitions below are a shallow embedding of the C++ source.  Machine
integers are modelled as `Nat` (with explicit `% 2^32` where 32-bit wraparound
matters) or as `Int` where the source uses signed `int` arithmetic.  The
`std::map` containers are modelled as association lists `List (Nat × _)`;
`lower_bound`/`upper_bound` range iteration over an ordered map visits exactly
the keys inside a closed interval, which is what the embedding uses.
GL side effects are reduced to the data they leave behind (bound texture,
actions); fields of `TexCacheEntry` that only memoize GL sampler state are
omitted since no modelled operation reads or writes them.

The class declaration of `TextureCache` (TextureCache.h) and the shared
headers (ge_constants.h, GPUState.h, Core/MemMap.h) are not part of the
source tree fragment; the constants and helpers taken from them are marked
"Modelled from the spec" in their doc comments, with the encodings pinned
down by how TextureCache.cpp itself masks and compares them.
-/
import Mathlib

namespace PPSSPP

/-- Modelled from the spec: `GPUInvalidationType` is declared in a shared GPU
header that is not part of the source fragment.  The spec (§4.9) and the uses
in `TextureCache::Invalidate` distinguish exactly `ALL`, `NORMAL` and `SAFE`. -/
inductive GPUInvalidationType where
  | all
  | normal
  | safe
deriving DecidableEq

/-- Modelled from the spec: virtual framebuffers (§6) are external
collaborators supplied by the framebuffer manager; only the fields that
`TextureCache.cpp` reads are represented. -/
structure VirtualFramebuffer where
  fb_address : Nat
  fb_stride : Nat
  width : Nat
  height : Nat
  format : Nat
  last_frame_render : Nat
  fbo : Nat
deriving DecidableEq

/-- Modelled from the spec: trust-state encoding of `TexCacheEntry::Status`
from TextureCache.h (not in the source fragment).  The spec (§3) gives the
trust tri-state {HASHING, RELIABLE, UNRELIABLE}; TextureCache.cpp pins the
encoding: `status &= ~STATUS_MASK` is commented "Clear status ->
STATUS_HASHING", so HASHING = 0 and the trust states live in the low mask
bits. -/
def STATUS_HASHING : Nat := 0

/-- Trust state RELIABLE (see `STATUS_HASHING` for the encoding note). -/
def STATUS_RELIABLE : Nat := 1

/-- Trust state UNRELIABLE, or-ed into `status` on a hash failure. -/
def STATUS_UNRELIABLE : Nat := 2

/-- Mask selecting the trust bits of `status`. -/
def STATUS_MASK : Nat := 3

/-- Modelled from the spec: alpha-state encoding of `TexCacheEntry::Status`.
The spec (§3) gives the alpha tri-state {UNKNOWN, SIMPLE, FULL}; the code
or-s exactly one of them into `status` after clearing `STATUS_ALPHA_MASK`,
and tests FULL with `(status & STATUS_ALPHA_MASK) == STATUS_ALPHA_FULL`. -/
def STATUS_ALPHA_UNKNOWN : Nat := 4

/-- Alpha state FULL: every pixel opaque (see `STATUS_ALPHA_UNKNOWN`). -/
def STATUS_ALPHA_FULL : Nat := 0

/-- Alpha state SIMPLE: pixels are fully opaque or fully transparent. -/
def STATUS_ALPHA_SIMPLE : Nat := 8

/-- Mask selecting the alpha bits of `status`. -/
def STATUS_ALPHA_MASK : Nat := 12

/-- One entry of the primary or secondary texture cache, following the
attribute list of spec §3 (the class declaration itself is in
TextureCache.h, outside the source fragment).  `invalidHint` is an `Int`
because the source uses the sentinel value `-1`.  The GL sampler memo fields
(`minFilt`, `magFilt`, `sClamp`, `tClamp`) are omitted: they are written
only by `UpdateSamplingParams`, which is pure GL-state bookkeeping. -/
structure TexCacheEntry where
  addr : Nat
  hash : Nat
  sizeInRAM : Nat
  format : Nat
  dim : Nat
  maxLevel : Nat
  bufw : Nat
  fullhash : Nat
  cluthash : Nat
  status : Nat
  invalidHint : Int
  numInvalidated : Nat
  numFrames : Nat
  lastFrame : Nat
  framesUntilNextFullHash : Nat
  lodBias : Int
  texture : Nat
  framebuffer : Option VirtualFramebuffer
deriving DecidableEq

/-- The widest plausible texture span used as leeway by `Invalidate`. -/
def LARGEST_TEXTURE_SIZE : Nat := 512 * 512 * 4

/-- If a texture has not been seen for this many frames, get rid of it. -/
def TEXTURE_KILL_AGE : Nat := 200

/-- Kill age intended for low-memory mode. -/
def TEXTURE_KILL_AGE_LOWMEM : Nat := 60

/-- Decimation cadence in frames. -/
def TEXCACHE_DECIMATION_INTERVAL : Nat := 13

/-- The effect of `TextureCache::Invalidate(addr, size, type)` on a single
cache slot `(key, entry)`.  Mirrors the loop body of TextureCache.cpp lines
132-159: the map range scanned is `lower_bound(startKey)` to
`upper_bound(endKey)`, i.e. exactly the keys in the closed interval
`[startKey, endKey]`; `startKey` and `endKey` are the 32-bit values
`addr - LARGEST_TEXTURE_SIZE` and `addr + size + LARGEST_TEXTURE_SIZE`
(computed in `u32` arithmetic, then widened to `u64` without any shift). -/
def invalidateEntry (addr0 size : Nat) (ty : GPUInvalidationType)
    (kv : Nat × TexCacheEntry) : Nat × TexCacheEntry :=
  let addr := addr0 &&& 0x0FFFFFFF
  let addr_end := (addr + size) % 4294967296
  let startKey := (addr + 4294967296 - LARGEST_TEXTURE_SIZE) % 4294967296
  let endKey := (addr + size + LARGEST_TEXTURE_SIZE) % 4294967296
  if startKey ≤ kv.1 ∧ kv.1 ≤ endKey then
    let texAddr := kv.2.addr
    let texEnd := (kv.2.addr + kv.2.sizeInRAM) % 4294967296
    if texAddr < addr_end ∧ addr < texEnd then
      let e1 :=
        if kv.2.status &&& STATUS_MASK = STATUS_RELIABLE then
          { kv.2 with status := kv.2.status &&& 0xFC }
        else kv.2
      let e2 :=
        if ty ≠ GPUInvalidationType.all then
          { e1 with numFrames := if ty = GPUInvalidationType.safe then 256 else 0,
                    framesUntilNextFullHash := 0 }
        else { e1 with invalidHint := e1.invalidHint + 1 }
      (kv.1, e2)
    else kv
  else kv

/-- `TextureCache::Invalidate` over the whole primary cache:
every slot is subjected to the per-entry transform (slots outside the
scanned key interval are left alone inside `invalidateEntry`). -/
def invalidate (addr0 size : Nat) (ty : GPUInvalidationType)
    (cache : List (Nat × TexCacheEntry)) : List (Nat × TexCacheEntry) :=
  cache.map (invalidateEntry addr0 size ty)

/-- One decimation pass (the body of `TextureCache::Decimate` after the
cadence counter has fired, TextureCache.cpp lines 111-129).  `killAge`
is computed exactly as in the source - and, exactly as in the source, the
two eviction loops compare against the constant `TEXTURE_KILL_AGE`
instead of `killAge`. -/
def decimatePass (lowMemoryMode : Bool) (numFlips : Nat)
    (cache secondCache : List (Nat × TexCacheEntry)) :
    List (Nat × TexCacheEntry) × List (Nat × TexCacheEntry) :=
  let _killAge := if lowMemoryMode then TEXTURE_KILL_AGE_LOWMEM else TEXTURE_KILL_AGE
  ( cache.filter (fun kv => ! decide (kv.2.lastFrame + TEXTURE_KILL_AGE < numFlips)),
    secondCache.filter (fun kv =>
      ! (lowMemoryMode || decide (kv.2.lastFrame + TEXTURE_KILL_AGE < numFlips))) )

/-- The scalar fallback loop of `QuickTexHash` (TextureCache.cpp lines
867-870) over the 32-bit words of the hashed region: the accumulator
alternately adds and xors consecutive words, one pair per iteration
(`sizeInRAM / 8` iterations in the source; here the word list carries
exactly the words the loop visits). -/
def quickTexHashScalarGo : List Nat → Nat → Nat
  | a :: b :: rest, check => quickTexHashScalarGo rest (((check + a) % 4294967296) ^^^ b)
  | _, check => check

/-- Scalar `QuickTexHash` digest of a region given as its 32-bit words. -/
def quickTexHashScalar (words : List Nat) : Nat :=
  quickTexHashScalarGo words 0

/-- The SSE path of `QuickTexHash` (TextureCache.cpp lines 851-861): the
128-bit cursor is four 32-bit lanes; each iteration loads two aligned
16-byte groups, lane-wise adds the first and lane-wise xors the second
(so the region size must be a multiple of 32 bytes = 8 words, which the
alignment guard `(... | sizeInRAM) & 0x1f == 0` enforces). -/
def quickTexHashSimdGo : List Nat → Nat × Nat × Nat × Nat → Nat × Nat × Nat × Nat
  | a0 :: a1 :: a2 :: a3 :: b0 :: b1 :: b2 :: b3 :: rest, (l0, l1, l2, l3) =>
    quickTexHashSimdGo rest
      ((((l0 + a0) % 4294967296) ^^^ b0),
       (((l1 + a1) % 4294967296) ^^^ b1),
       (((l2 + a2) % 4294967296) ^^^ b2),
       (((l3 + a3) % 4294967296) ^^^ b3))
  | _, cursor => cursor

/-- The lane reduction closing both SSE hash paths: shift the cursor right
by 8 bytes and add, shift by 4 bytes and add, then take the low lane
(`_mm_srli_si128` / `_mm_add_epi32` / `_mm_cvtsi128_si32`). -/
def simdLaneReduce : Nat × Nat × Nat × Nat → Nat
  | (l0, l1, l2, l3) => (((l0 + l2) % 4294967296) + ((l1 + l3) % 4294967296)) % 4294967296

/-- Aligned (SSE) `QuickTexHash` digest of a region given as its words. -/
def quickTexHashSimd (words : List Nat) : Nat :=
  simdLaneReduce (quickTexHashSimdGo words (0, 0, 0, 0))

/-- The multiplier used by `QuickClutHash`. -/
def QUICK_CLUT_PRIME : Nat := 2246822519

/-- The scalar fallback loop of `QuickClutHash` (TextureCache.cpp lines
836-838): every 32-bit word of the CLUT is multiplied by the prime and
summed (all in 32-bit arithmetic). -/
def quickClutHashScalarGo : List Nat → Nat → Nat
  | a :: rest, hash => quickClutHashScalarGo rest ((hash + a * QUICK_CLUT_PRIME) % 4294967296)
  | [], hash => hash

/-- Scalar `QuickClutHash` digest of a CLUT given as its 32-bit words. -/
def quickClutHashScalar (words : List Nat) : Nat :=
  quickClutHashScalarGo words 0

/-- The SSE path of `QuickClutHash` (TextureCache.cpp lines 820-830): per
aligned 16-byte group, `_mm_mul_epu32` forms the two 64-bit products of the
even-indexed words (lanes 0 and 2) with the prime - the odd-indexed words do
not enter at all - and the products are accumulated lane-wise as four 32-bit
lanes (low and high halves of each product landing in adjacent lanes). -/
def quickClutHashSimdGo : List Nat → Nat × Nat × Nat × Nat → Nat × Nat × Nat × Nat
  | a0 :: _a1 :: a2 :: _a3 :: rest, (l0, l1, l2, l3) =>
    let p0 := a0 * QUICK_CLUT_PRIME
    let p2 := a2 * QUICK_CLUT_PRIME
    quickClutHashSimdGo rest
      ((l0 + p0 % 4294967296) % 4294967296,
       (l1 + p0 / 4294967296) % 4294967296,
       (l2 + p2 % 4294967296) % 4294967296,
       (l3 + p2 / 4294967296) % 4294967296)
  | _, cursor => cursor

/-- Aligned (SSE) `QuickClutHash` digest of a CLUT given as its words. -/
def quickClutHashSimd (words : List Nat) : Nat :=
  simdLaneReduce (quickClutHashSimdGo words (0, 0, 0, 0))

/-- `std::map::find`: look up a key in an association-list cache. -/
def lookupKey (m : List (Nat × TexCacheEntry)) (k : Nat) : Option TexCacheEntry :=
  (m.find? (fun kv => kv.1 == k)).map (fun kv => kv.2)

/-- `map[key] = value`: replace the binding if the key is present, insert
it otherwise. -/
def insertKey (m : List (Nat × TexCacheEntry)) (k : Nat) (v : TexCacheEntry) :
    List (Nat × TexCacheEntry) :=
  if (m.find? (fun kv => kv.1 == k)).isSome then
    m.map (fun kv => if kv.1 == k then (kv.1, v) else kv)
  else m ++ [(k, v)]

/-- `TexCacheEntry::Matches` (TextureCache.cpp lines 876-878). -/
def entryMatches (e : TexCacheEntry) (dim2 format2 maxLevel2 : Nat) : Bool :=
  e.dim == dim2 && e.format == format2 && e.maxLevel == maxLevel2

/-- Result of the hash-failure block of `SetTexture`: `entry` is what the
`entry` pointer refers to afterwards (the secondary entry if the lookup
swapped), `updatedPrimary` is the new value of the primary-cache entry,
`matched` is the `match` flag, and `doDelete` tells the caller whether the
GL handle may still be deleted. -/
structure SecondChanceResult where
  entry : TexCacheEntry
  updatedPrimary : TexCacheEntry
  usedSecond : Bool
  matched : Bool
  secondCache : List (Nat × TexCacheEntry)
  doDelete : Bool
deriving DecidableEq

/-- The hash-failure path of `TextureCache::SetTexture` (TextureCache.cpp
lines 1117-1143): mark the entry UNRELIABLE and reset `numFrames`; if it has
been invalidated more than 2 and fewer than 128 times and low-memory mode is
off, consult the secondary cache under `fullhash | cluthash << 32`.  On a
hit with matching geometry, decrement `numInvalidated` only when it exceeds
8, then swap to the secondary entry; on a find-miss, demote a copy of the
primary entry into the secondary cache under its own hashes and suppress the
pending delete. -/
def hashFailSecondChance (e : TexCacheEntry) (lowMemoryMode : Bool)
    (secondCache : List (Nat × TexCacheEntry))
    (fullhash cluthash dim format maxLevel : Nat) : SecondChanceResult :=
  let e1 := { e with status := e.status ||| STATUS_UNRELIABLE, numFrames := 0 }
  if 2 < e1.numInvalidated ∧ e1.numInvalidated < 128 ∧ lowMemoryMode = false then
    let secondKey := fullhash ||| (cluthash <<< 32)
    match lookupKey secondCache secondKey with
    | some secondEntry =>
      if entryMatches secondEntry dim format maxLevel then
        let e2 :=
          if 8 < e1.numInvalidated then
            { e1 with numInvalidated := e1.numInvalidated - 1 }
          else e1
        { entry := secondEntry, updatedPrimary := e2, usedSecond := true,
          matched := true, secondCache := secondCache, doDelete := true }
      else
        { entry := e1, updatedPrimary := e1, usedSecond := false,
          matched := false, secondCache := secondCache, doDelete := true }
    | none =>
      let demoteKey := e1.fullhash ||| (e1.cluthash <<< 32)
      { entry := e1, updatedPrimary := e1, usedSecond := false,
        matched := false, secondCache := insertKey secondCache demoteKey e1,
        doDelete := false }
  else
    { entry := e1, updatedPrimary := e1, usedSecond := false,
      matched := false, secondCache := secondCache, doDelete := true }

/-- The color recorded by the alpha-linear fast-path detection:
`clut[15] & 0xFFF0` (TextureCache.cpp line 916).  The palette is given as a
function from index to converted 16-bit color. -/
def clutAlphaLinearColor (clut : Nat → Nat) : Nat :=
  clut 15 &&& 0xFFF0

/-- The alpha-linear fast-path detection loop of
`TextureCache::UpdateCurrentClut` (TextureCache.cpp lines 913-928), given
that the palette format is ABGR4444 and the CLUT index transform is simple:
`clutAlphaLinear_` stays true iff `clut[i] & 0xF == i` for every index and
`clut[i] & 0xFFF0` agrees with `clut[15] & 0xFFF0` for every nonzero index
("Alpha 0 doesn't matter": index 0 is exempt from the high-bits check). -/
def clutAlphaLinear (clut : Nat → Nat) : Bool :=
  (List.range 16).all (fun i =>
    clut i &&& 0xF == i && (i == 0 || clut i &&& 0xFFF0 == clutAlphaLinearColor clut))

/-- The 4-bit slow-path decode `DeIndexTexture4` (TextureCache.cpp lines
365-383) in its `nakedIndex` form (a simple CLUT index transform is part of
the fast-path detection, so this is the branch that competes with the fast
path): each source byte yields two pixels, low nibble first. -/
def deIndexTexture4 (clut : Nat → Nat) : List Nat → List Nat
  | [] => []
  | b :: rest =>
    clut ((b >>> 0) &&& 0xF) :: clut ((b >>> 4) &&& 0xF) :: deIndexTexture4 clut rest

/-- The `u16` specialization of `DeIndexTexture4Optimal` (TextureCache.cpp
lines 394-404): the index bytes are read two at a time as a little-endian
`u16`, and each iteration writes two 32-bit words of pixel data
(`color32 = color << 16 | color`); the four 16-bit pixels are listed here in
memory order (low half of each `u32` first). -/
def deIndexTexture4Optimal (color : Nat) : List Nat → List Nat
  | b0 :: b1 :: rest =>
    let index := b0 + 256 * b1
    let color32 := (color <<< 16) ||| color
    let d0 := color32 ||| ((index &&& 0x00F0) <<< 12) ||| ((index &&& 0x000F) >>> 0)
    let d1 := color32 ||| ((index &&& 0xF000) <<< 4) ||| ((index &&& 0x0F00) >>> 8)
    d0 % 65536 :: (d0 >>> 16) % 65536 :: d1 % 65536 :: (d1 >>> 16) % 65536 ::
      deIndexTexture4Optimal color rest
  | _ => []

/-- `Convert5To8` from the shared color utilities (not in the source
fragment): standard 5-to-8-bit replication `(v << 3) | (v >> 2)`. -/
def convert5To8 (v : Nat) : Nat :=
  (v <<< 3) ||| (v >>> 2)

/-- `Convert6To8` from the shared color utilities (not in the source
fragment): standard 6-to-8-bit replication `(v << 2) | (v >> 4)`. -/
def convert6To8 (v : Nat) : Nat :=
  (v <<< 2) ||| (v >>> 4)

/-- A PSP DXT1 block in struct order (TextureCache.cpp lines 613-617):
four index bytes first, then the two little-endian 16-bit colors - the
reverse of the PC layout. -/
structure DXT1Block where
  lines : List Nat
  color1 : Nat
  color2 : Nat
deriving DecidableEq

/-- `makecol(r, g, b, a) = (a << 24) | (r << 16) | (g << 8) | b`
(TextureCache.cpp lines 631-633).  The components produced by
`decodeDXT1Block` always lie in `[0, 255]` (proved in
`dxt1_component_bounds`), so the or of the disjoint shifted fields equals
this sum; the sum form also fixes what the source's signed-int shifts would
do if a component ever escaped that range, which it cannot. -/
def makecol (r g b a : Int) : Int :=
  a * 16777216 + r * 65536 + g * 256 + b

/-- C arithmetic shift right on a signed int: floor division by a power of
two, which for the positive divisors used here is `Int` division `/`
(`Int.ediv`). -/
def asr (x : Int) (n : Nat) : Int :=
  x / (2 ^ n : Nat)

/-- The four palette colors computed by `decodeDXT1Block` (TextureCache.cpp
lines 639-662): expand the 565 components of `color1`/`color2` to 8 bits;
if `c1 > c2` (or 1-bit alpha is ignored) derive the interpolants with
arithmetic shifts `((d >> 1) - (d >> 3))` and keep everything opaque, else
average for the third color and make the fourth transparent. -/
def dxt1Colors (blk : DXT1Block) (ignore1bitAlpha : Bool) : List Int :=
  let c1 := blk.color1
  let c2 := blk.color2
  let red1 : Int := convert5To8 (c1 &&& 0x1F)
  let red2 : Int := convert5To8 (c2 &&& 0x1F)
  let green1 : Int := convert6To8 ((c1 >>> 5) &&& 0x3F)
  let green2 : Int := convert6To8 ((c2 >>> 5) &&& 0x3F)
  let blue1 : Int := convert5To8 ((c1 >>> 11) &&& 0x1F)
  let blue2 : Int := convert5To8 ((c2 >>> 11) &&& 0x1F)
  if c2 < c1 ∨ ignore1bitAlpha = true then
    let blue3 := asr (blue2 - blue1) 1 - asr (blue2 - blue1) 3
    let green3 := asr (green2 - green1) 1 - asr (green2 - green1) 3
    let red3 := asr (red2 - red1) 1 - asr (red2 - red1) 3
    [makecol red1 green1 blue1 255,
     makecol red2 green2 blue2 255,
     makecol (red1 + red3) (green1 + green3) (blue1 + blue3) 255,
     makecol (red2 - red3) (green2 - green3) (blue2 - blue3) 255]
  else
    [makecol red1 green1 blue1 255,
     makecol red2 green2 blue2 255,
     makecol ((red1 + red2 + 1) / 2) ((green1 + green2 + 1) / 2) ((blue1 + blue2 + 1) / 2) 255,
     makecol red2 green2 blue2 0]

/-- One output row of `decodeDXT1Block` (TextureCache.cpp lines 664-671):
`val` starts as the row's index byte and is shifted right by two bits after
each texel; each texel selects `colors[val & 3]`. -/
def dxt1RowGo (colors : List Int) : Nat → Nat → List Int
  | 0, _ => []
  | n + 1, val => colors.getD (val &&& 3) 0 :: dxt1RowGo colors n (val >>> 2)

/-- `decodeDXT1Block` as a 4-list of 4-texel rows. -/
def decodeDXT1Block (blk : DXT1Block) (ignore1bitAlpha : Bool) : List (List Int) :=
  let colors := dxt1Colors blk ignore1bitAlpha
  (List.range 4).map (fun y => dxt1RowGo colors 4 (blk.lines.getD y 0))

/-- Convenience accessor: the decoded texel at `(x, y)` of a DXT1 block. -/
def dxt1Pixel (blk : DXT1Block) (ignore1bitAlpha : Bool) (x y : Nat) : Int :=
  ((decodeDXT1Block blk ignore1bitAlpha).getD y []).getD x 0

/-- Destination pixel formats returned by the decoders (the `GLenum`
values `GL_UNSIGNED_SHORT_4_4_4_4`, `..._5_5_5_1`, `..._5_6_5` and
`GL_UNSIGNED_BYTE` for 8888). -/
inductive GLPixelFmt where
  | u4444
  | u5551
  | u565
  | u8888
deriving DecidableEq

/-- The 4444 scan loop of `TextureCache::CheckAlpha` (TextureCache.cpp
lines 1556-1567) over 32-bit words (two pixels each): returns the
accumulated `hitZeroAlpha` and `hitSomeAlpha`, breaking out as soon as a
partial alpha value is seen. -/
def checkAlpha4444Go : List Nat → Nat → Nat × Nat
  | [], hitZero => (hitZero, 0)
  | p :: rest, hitZero =>
    let a := p &&& 0x000F000F
    let hitZero1 := hitZero ||| (a ^^^ 0x000F000F)
    if a ≠ 0x000F000F ∧ a ≠ 0x0000000F ∧ a ≠ 0x000F0000 ∧ a ≠ 0 then
      (hitZero1, 1)
    else
      checkAlpha4444Go rest hitZero1

/-- The 5551 scan loop of `CheckAlpha` (lines 1569-1576): only
`hitZeroAlpha` is accumulated, there is no early exit. -/
def checkAlpha5551Go : List Nat → Nat → Nat
  | [], hitZero => hitZero
  | p :: rest, hitZero =>
    checkAlpha5551Go rest (hitZero ||| ((p &&& 0x00010001) ^^^ 0x00010001))

/-- The 8888 scan loop of `CheckAlpha` (lines 1583-1594), one pixel per
word, breaking out on a partial alpha byte. -/
def checkAlpha8888Go : List Nat → Nat → Nat × Nat
  | [], hitZero => (hitZero, 0)
  | p :: rest, hitZero =>
    let a := p &&& 0xFF000000
    let hitZero1 := hitZero ||| (a ^^^ 0xFF000000)
    if a ≠ 0xFF000000 ∧ a ≠ 0 then
      (hitZero1, 1)
    else
      checkAlpha8888Go rest hitZero1

/-- `TextureCache::CheckAlpha` (TextureCache.cpp lines 1550-1604) reduced
to the alpha-status bits it ors into `entry.status`: scan the pixel data
according to the destination format (the 565 case scans nothing - "Never
has any alpha") and classify UNKNOWN / SIMPLE / FULL. -/
def checkAlpha (pixelData : List Nat) (dstFmt : GLPixelFmt) (w h : Nat) : Nat :=
  let wordCount :=
    match dstFmt with
    | GLPixelFmt.u8888 => w * h
    | _ => (w * h + 1) / 2
  let scan :=
    match dstFmt with
    | GLPixelFmt.u4444 => checkAlpha4444Go (pixelData.take wordCount) 0
    | GLPixelFmt.u5551 => (checkAlpha5551Go (pixelData.take wordCount) 0, 0)
    | GLPixelFmt.u565 => (0, 0)
    | GLPixelFmt.u8888 => checkAlpha8888Go (pixelData.take wordCount) 0
  if scan.2 ≠ 0 then STATUS_ALPHA_UNKNOWN
  else if scan.1 ≠ 0 then STATUS_ALPHA_SIMPLE
  else STATUS_ALPHA_FULL

/-- The alpha bookkeeping of `TextureCache::LoadTextureLevel`
(TextureCache.cpp lines 1641-1644): run `CheckAlpha` over the decoded
pixels only when the entry has never been invalidated, otherwise or in
`STATUS_ALPHA_UNKNOWN`. -/
def loadTextureLevelAlpha (e : TexCacheEntry) (pixelData : List Nat)
    (dstFmt : GLPixelFmt) (w h : Nat) : TexCacheEntry :=
  if e.numInvalidated = 0 then
    { e with status := e.status ||| checkAlpha pixelData dstFmt w h }
  else
    { e with status := e.status ||| STATUS_ALPHA_UNKNOWN }

/-- The `textureFullAlpha` test applied after a decode or on a rebind
(TextureCache.cpp lines 1153 and 1294):
`(status & STATUS_ALPHA_MASK) == STATUS_ALPHA_FULL`. -/
def texFullAlpha (status : Nat) : Bool :=
  status &&& STATUS_ALPHA_MASK == STATUS_ALPHA_FULL

/-- Guest memory as seen by the cache (spec §6: flat byte-addressed region
with a validity predicate; `Memory::GetPointer` / `Memory::IsValidAddress`
are outside the source fragment).  `word a` is the 32-bit word at byte
address `a`. -/
structure GuestMem where
  valid : Nat → Bool
  word : Nat → Nat

/-- The `n` consecutive 32-bit words starting at byte address `addr`. -/
def readWords (mem : GuestMem) (addr n : Nat) : List Nat :=
  (List.range n).map (fun i => mem.word (addr + 4 * i))

/-- `ConvertColors` (TextureCache.cpp lines 733-778) as the pure word
transform it applies: each 32-bit word holds two 16-bit pixels for the
16-bit formats; the default (8888) case leaves the data as is (at the
in-place call sites `dst == src`, so even the `memcpy` is skipped). -/
def convertColors (dstFmt : GLPixelFmt) (words : List Nat) : List Nat :=
  match dstFmt with
  | GLPixelFmt.u4444 =>
    words.map (fun c =>
      ((c >>> 12) &&& 0x000F000F) ||| ((c >>> 4) &&& 0x00F000F0) |||
      ((c <<< 4) &&& 0x0F000F00) ||| ((c <<< 12) &&& 0xF000F000))
  | GLPixelFmt.u5551 =>
    words.map (fun c =>
      ((c >>> 15) &&& 0x00010001) ||| ((c >>> 9) &&& 0x003E003E) |||
      ((c <<< 1) &&& 0x07C007C0) ||| ((c <<< 11) &&& 0xF800F800))
  | GLPixelFmt.u565 =>
    words.map (fun c =>
      ((c >>> 11) &&& 0x001F001F) ||| ((c >>> 0) &&& 0x07E007E0) |||
      ((c <<< 11) &&& 0xF800F800))
  | GLPixelFmt.u8888 => words

/-- `TextureCache::UnswizzleFromMem` for 32-bit texels (`bytesPerPixel = 4`,
the case the 8888 decoder uses; then `rowWidth = bufw * 4 ≥ 16` because
`bufw ≥ 4`, so the generic 16-byte block-copy path is the one taken,
TextureCache.cpp lines 278-293).  The blocks are copied into a scratch
array; the source words are consumed sequentially while the destination
index walks blocks of 4 words by 8 rows. -/
def unswizzleFromMem32 (mem : GuestMem) (texaddr bufw h : Nat) : List Nat :=
  let pitch := bufw
  let bxc := bufw * 4 / 16
  let byc := max ((h + 7) / 8) 1
  let init := List.replicate (pitch * 8 * byc) 0
  ((List.range byc).foldl (fun acc by1 =>
    (List.range bxc).foldl (fun acc bx =>
      (List.range 8).foldl (fun acc n =>
        (List.range 4).foldl (fun acc j =>
          acc.set (by1 * pitch * 8 + n * pitch + bx * 4 + j)
            (mem.word (texaddr + 4 * ((by1 * bxc + bx) * 32 + n * 4 + j)))) acc) acc) acc)
    init)

/-- What `DecodeTextureLevel` returns: either the guest memory itself
(the zero-copy path hands back `Memory::GetPointer(texaddr)`) or one of the
scratch buffers, identified by its contents. -/
inductive DecodedBuf where
  | guest (addr : Nat)
  | scratch (data : List Nat)
deriving DecidableEq

/-- The row-rectification step at the end of `DecodeTextureLevel`
(TextureCache.cpp lines 1517-1545), on 32-bit rows: pack rows of `bufw`
pixels down to `w` pixels (into the rearrange buffer when growing, in place
when shrinking; either way row `y` of the result is the `w` words starting
at offset `y * bufw`). -/
def rectifyRows (data : List Nat) (bufw w h : Nat) : List Nat :=
  (List.range h).flatMap (fun y => ((data.drop (y * bufw)).take w))

/-- The `GE_TFMT_8888` branch of `TextureCache::DecodeTextureLevel`
(TextureCache.cpp lines 1422-1443) followed by the shared rectification
tail: clamp `bufw` up to 4; without swizzling, either return guest memory
directly (`w == bufw`) or copy `bufw * h` words to scratch; with swizzling,
unswizzle to scratch.  `ConvertColors` is then called with `dst == src` and
`GL_UNSIGNED_BYTE`, which changes nothing, and rows are rectified only when
`w != bufw`. -/
def decodeTextureLevel8888 (mem : GuestMem) (texaddr bufw0 w h : Nat)
    (swizzled : Bool) : DecodedBuf :=
  let bufw := if bufw0 < 4 then 4 else bufw0
  let buf :=
    if swizzled = false then
      if w = bufw then DecodedBuf.guest texaddr
      else DecodedBuf.scratch (readWords mem texaddr (bufw * h))
    else
      DecodedBuf.scratch (unswizzleFromMem32 mem texaddr bufw h)
  let buf1 :=
    match buf with
    | DecodedBuf.guest a => DecodedBuf.guest a
    | DecodedBuf.scratch d => DecodedBuf.scratch (convertColors GLPixelFmt.u8888 d)
  if w ≠ bufw then
    match buf1 with
    | DecodedBuf.guest a => DecodedBuf.guest a
    | DecodedBuf.scratch d => DecodedBuf.scratch (rectifyRows d bufw w h)
  else buf1

/-- Modelled from the spec: `PSP_GetUserMemoryBase()` (Core/MemMap.h, not in
the source fragment) is the standard PSP user-memory base address. -/
def PSP_USER_MEMORY_BASE : Nat := 0x08800000

/-- `GetLevelBufw` (TextureCache.cpp lines 59-64): kernel textures (PPGe)
keep 13 bits of the buffer-width register, user textures 11 bits. -/
def getLevelBufw (texbufwidth texaddr : Nat) : Nat :=
  if texaddr < PSP_USER_MEMORY_BASE then texbufwidth &&& 0x1FFF
  else texbufwidth &&& 0x7FF

/-- Modelled from the spec: `gstate.isTextureFormatIndexed()` (GPUState.h).
The palette-indexed formats are CLUT4..CLUT32, i.e. codes 4..7 in the
format order documented by the `bitsPerPixel` table of TextureCache.cpp. -/
def isTextureFormatIndexed (format : Nat) : Bool :=
  4 ≤ format && format ≤ 7

/-- The `bitsPerPixel` table of TextureCache.cpp lines 790-807, indexed by
`GETextureFormat` (5650, 5551, 4444, 8888, CLUT4, CLUT8, CLUT16, CLUT32,
DXT1, DXT3, DXT5, then invalid entries). -/
def bitsPerPixel (format : Nat) : Nat :=
  [16, 16, 16, 32, 4, 8, 16, 32, 4, 8, 8, 0, 0, 0, 0, 0].getD format 0

/-- `QuickTexHash(addr, bufw, w, h, format)` over guest memory: the hashed
size is `bitsPerPixel[format] * bufw * h / 8` bytes and the scalar loop
visits `sizeInRAM / 8` word pairs (the `w` argument is unused, exactly as in
the source).  The state-machine model always uses the scalar digest. -/
def quickTexHash (mem : GuestMem) (addr : Nat) (bufw _w h format : Nat) : Nat :=
  let sizeInRAM := bitsPerPixel format * bufw * h / 8
  quickTexHashScalar (readWords mem addr (sizeInRAM / 8 * 2))

/-- Modelled from the spec: `TexCacheEntry::FRAMES_REGAIN_TRUST` is declared
in TextureCache.h (not in the source fragment); the spec's constants table
(§6) gives it as ≈ 256. -/
def FRAMES_REGAIN_TRUST : Nat := 256

/-- Modelled from the spec: the rendering-mode enum (Config.h).  The spec
(§4.7) distinguishes non-buffered, buffered and software modes; the code
only compares against the first two. -/
def FB_NON_BUFFERED_MODE : Nat := 0

/-- Buffered rendering mode (see `FB_NON_BUFFERED_MODE`). -/
def FB_BUFFERED_MODE : Nat := 1

/-- Modelled from the spec: the slice of `g_Config` the texture cache reads
(§6). -/
structure Config where
  iRenderingMode : Nat
  iTexScalingLevel : Nat
  bMipMap : Bool
deriving DecidableEq

/-- Modelled from the spec: the slice of the guest GPU register state the
cache reads (§6).  `texaddr i` and `texbufwidth i` are the per-level
registers; `texsize0` packs the log2 dimensions; helpers such as
`getTextureWidth` are the standard `1 << (texsize & 0xF)` decodings. -/
structure GPUGState where
  texaddr : Nat → Nat
  texbufwidth : Nat → Nat
  texsize0 : Nat
  texformat : Nat
  texmode : Nat
  clutformat : Nat

/-- The mutable state of `TextureCache` that the modelled operations touch.
`clutHash` carries the digest of the currently loaded palette (the palette
buffers themselves and the xxHash computation of `UpdateCurrentClut` stay
outside this fragment's model); `textureFullAlpha` stands for
`gstate_c.textureFullAlpha`; `nextTexture` is a fresh-handle counter
standing in for `glGenTextures`. -/
structure TextureCacheState where
  cache : List (Nat × TexCacheEntry)
  secondCache : List (Nat × TexCacheEntry)
  fbCache : List VirtualFramebuffer
  lastBoundTexture : Int
  lowMemoryMode : Bool
  clutHash : Nat
  clutLastFormat : Nat
  textureFullAlpha : Bool
  nextTexture : Nat

/-- The host-GPU binding a `SetTexture` call performs. -/
inductive TexAction where
  | bindNull
  | bindFramebufferColor (fbo : Nat)
  | bind (texture : Nat)
  | keepBound
deriving DecidableEq

/-- `AttachFramebufferValid` (TextureCache.cpp lines 176-184). -/
def attachFramebufferValid (e : TexCacheEntry) (fb : VirtualFramebuffer) : TexCacheEntry :=
  let hasInvalidFramebuffer := e.framebuffer.isNone || e.invalidHint == -1
  let hasOlderFramebuffer :=
    match e.framebuffer with
    | some old => decide (old.last_frame_render < fb.last_frame_render)
    | none => false
  if hasInvalidFramebuffer || hasOlderFramebuffer then
    { e with framebuffer := some fb, invalidHint := 0 }
  else e

/-- `AttachFramebufferInvalid` (TextureCache.cpp lines 186-192). -/
def attachFramebufferInvalid (e : TexCacheEntry) (fb : VirtualFramebuffer) : TexCacheEntry :=
  if e.framebuffer.isNone || e.framebuffer == some fb then
    { e with framebuffer := some fb, invalidHint := -1 }
  else e

/-- `TextureCache::AttachFramebuffer` (TextureCache.cpp lines 194-230).
`GE_FORMAT_8888 = 3`; the CLUT32/CLUT16 texture format codes are 7 and 6.
The subarea offset `(entry->addr - address) / entry->bufw` is computed in
unsigned arithmetic; in the scan that reaches this point `entry->addr` is
at or above the framebuffer address. -/
def attachFramebuffer (cfg : Config) (e : TexCacheEntry) (address : Nat)
    (fb : VirtualFramebuffer) (exactMatch : Bool) : TexCacheEntry :=
  if exactMatch then
    if e.framebuffer.isNone then
      if e.format ≠ fb.format then attachFramebufferInvalid e fb
      else attachFramebufferValid e fb
    else e
  else if cfg.iRenderingMode = FB_NON_BUFFERED_MODE ∨ cfg.iRenderingMode = FB_BUFFERED_MODE then
    let compatFormat := fb.format = e.format ∨ (fb.format = 3 ∧ e.format = 7) ∨
      (fb.format ≠ 3 ∧ e.format = 6)
    if fb.fb_stride = e.bufw ∧ compatFormat then
      if fb.format ≠ e.format then attachFramebufferValid e fb
      else if (e.addr - address) / e.bufw < fb.height then attachFramebufferValid e fb
      else e
    else e
  else e

/-- `TextureCache::SetTextureFramebuffer` (TextureCache.cpp lines 984-1009)
reduced to the binding it performs and the `textureFullAlpha` value it
publishes (`none` when the non-buffered path leaves the flag untouched).
`GE_FORMAT_565 = 0`. -/
def setTextureFramebuffer (cfg : Config) (e : TexCacheEntry) : TexAction × Option Bool :=
  match e.framebuffer with
  | some fb =>
    if cfg.iRenderingMode ≠ FB_NON_BUFFERED_MODE then
      if fb.fbo ≠ 0 ∧ e.invalidHint ≠ -1 then
        (TexAction.bindFramebufferColor fb.fbo, some (fb.format == 0))
      else
        (TexAction.bindNull, some (fb.format == 0))
    else (TexAction.bindNull, none)
  | none => (TexAction.bindNull, none)

/-- A fresh `TexCacheEntry entryNew = {0}` (TextureCache.cpp line 1180). -/
def zeroTexCacheEntry : TexCacheEntry :=
  { addr := 0, hash := 0, sizeInRAM := 0, format := 0, dim := 0, maxLevel := 0,
    bufw := 0, fullhash := 0, cluthash := 0, status := 0, invalidHint := 0,
    numInvalidated := 0, numFrames := 0, lastFrame := 0,
    framesUntilNextFullHash := 0, lodBias := 0, texture := 0, framebuffer := none }

/-- The decode tail of `SetTexture` (TextureCache.cpp lines 1191-1294):
populate the entry's fields, scan the framebuffer registry for an overlap
with the cache key (`MAX_SUBAREA_Y_OFFSET = 32`), branch to the framebuffer
path if something attached, otherwise allocate/keep the GL handle, load
level 0 (modelled by its alpha bookkeeping over the decoded pixels, which
are a parameter here: the per-format decoders are modelled separately) and
publish `textureFullAlpha`.  The `maxLevel` trim loop and the mipmap,
anisotropy and sampler calls are GL-side only and do not touch the cache
state (the trim modifies the local variable, not `entry->maxLevel`). -/
def setTextureDecode (cfg : Config) (st : TextureCacheState) (mem : GuestMem)
    (cachekey texaddr texhash format dim bufw maxLevel cluthash fullhash0 : Nat)
    (replaceImages : Bool) (e : TexCacheEntry) (numFlips w h : Nat)
    (decodedFmt : GLPixelFmt) (decodedPixels : List Nat) :
    TextureCacheState × TexAction :=
  let e1 := { e with
    addr := texaddr, hash := texhash, format := format, lastFrame := numFlips,
    framebuffer := none, maxLevel := maxLevel, lodBias := 0, dim := dim,
    bufw := bufw,
    sizeInRAM := bitsPerPixel format * bufw * h / 2 / 8,
    fullhash := if fullhash0 = 0 then quickTexHash mem texaddr bufw w h format else fullhash0,
    cluthash := cluthash,
    status := e.status &&& 0xF3 }
  let e2 := st.fbCache.foldl (fun acc fb =>
    let cacheKeyStart := (fb.fb_address ||| 0x04000000) <<< 32
    let cacheKeyEnd := cacheKeyStart + ((fb.fb_stride * 32) <<< 32)
    if cacheKeyStart ≤ cachekey ∧ cachekey < cacheKeyEnd then
      attachFramebuffer cfg acc fb.fb_address fb (cachekey == cacheKeyStart)
    else acc) e1
  if e2.framebuffer.isSome then
    let af := setTextureFramebuffer cfg e2
    ({ st with cache := insertKey st.cache cachekey e2,
               lastBoundTexture := -1,
               textureFullAlpha := af.2.getD st.textureFullAlpha }, af.1)
  else
    let tex := if replaceImages then e2.texture else st.nextTexture
    let e3 := loadTextureLevelAlpha { e2 with texture := tex } decodedPixels decodedFmt w h
    ({ st with cache := insertKey st.cache cachekey e3,
               nextTexture := if replaceImages then st.nextTexture else st.nextTexture + 1,
               lastBoundTexture := (tex : Int),
               textureFullAlpha := texFullAlpha e3.status }, TexAction.bind tex)

/-- The miss bookkeeping of `SetTexture` (TextureCache.cpp lines 1158-1177)
followed by the decode tail: bump `numInvalidated`, decide between
`glTexSubImage` reuse (`replaceImages`) and deletion, demote a (whole-byte)
RELIABLE status to HASHING.  The transient `lastBoundTexture = -1` around
a deletion is unobservable because the decode tail rebinds. -/
def setTextureMiss (cfg : Config) (st : TextureCacheState) (mem : GuestMem)
    (cachekey texaddr texhash format dim bufw maxLevel cluthash fullhash0 : Nat)
    (doDelete : Bool) (e : TexCacheEntry) (numFlips w h : Nat)
    (decodedFmt : GLPixelFmt) (decodedPixels : List Nat) :
    TextureCacheState × TexAction :=
  let e1 := { e with numInvalidated := e.numInvalidated + 1 }
  let replaceImages := doDelete &&
    decide (e1.maxLevel = maxLevel ∧ e1.dim = dim ∧ e1.format = format ∧
            cfg.iTexScalingLevel ≤ 1)
  let e2 := if e1.status = STATUS_RELIABLE then { e1 with status := STATUS_HASHING } else e1
  setTextureDecode cfg st mem cachekey texaddr texhash format dim bufw maxLevel
    cluthash fullhash0 replaceImages e2 numFlips w h decodedFmt decodedPixels

/-- The hit return of `SetTexture` (TextureCache.cpp lines 1146-1157) with
the caches already updated: rebind only when the entry's handle differs from
`lastBoundTexture` (and only then refresh `textureFullAlpha`). -/
def setTextureHit (st : TextureCacheState)
    (cache1 second1 : List (Nat × TexCacheEntry)) (eActive : TexCacheEntry) :
    TextureCacheState × TexAction :=
  if (eActive.texture : Int) ≠ st.lastBoundTexture then
    ({ st with cache := cache1, secondCache := second1,
               lastBoundTexture := (eActive.texture : Int),
               textureFullAlpha := texFullAlpha eActive.status }, TexAction.bind eActive.texture)
  else
    ({ st with cache := cache1, secondCache := second1 }, TexAction.keepBound)

/-- The geometry-matched revalidation of a found entry (TextureCache.cpp
lines 1082-1144): bump `numFrames` once per frame, run the exponential
rehash backoff, force a rehash on large `invalidHint`, compare the mini
hash, recompute the full hash when required, possibly regain trust, and on
a hash failure run the second-chance block.  Returns the hit or miss
continuation. -/
def setTextureFoundMatch (cfg : Config) (st : TextureCacheState) (mem : GuestMem)
    (cachekey texaddr texhash format dim bufw maxLevel cluthash : Nat)
    (e : TexCacheEntry) (numFlips w h : Nat)
    (decodedFmt : GLPixelFmt) (decodedPixels : List Nat) :
    TextureCacheState × TexAction :=
  let rehash0 := e.status &&& STATUS_MASK == STATUS_UNRELIABLE
  let e1 := if e.lastFrame ≠ numFlips then { e with numFrames := e.numFrames + 1 } else e
  let step2 :=
    if e1.framesUntilNextFullHash = 0 then
      ({ e1 with framesUntilNextFullHash := min 2048 e1.numFrames }, true)
    else
      ({ e1 with framesUntilNextFullHash := e1.framesUntilNextFullHash - 1 }, rehash0)
  let e2 := step2.1
  let step3 :=
    if 180 < e2.invalidHint ∨ (15 < e2.invalidHint ∧ dim ≤ 0x909) then
      ({ e2 with invalidHint := 0 }, true)
    else (e2, step2.2)
  let e3 := step3.1
  let miniFail := texhash ≠ e3.hash
  let fh1 := if miniFail then quickTexHash mem texaddr bufw w h format else 0
  let rehash := if miniFail then false else step3.2
  let step4 :=
    if rehash = true ∧ e3.status &&& STATUS_MASK ≠ STATUS_RELIABLE then
      let fh2 := quickTexHash mem texaddr bufw w h format
      if fh2 ≠ e3.fullhash then (e3, fh2, true)
      else if e3.status &&& STATUS_MASK = STATUS_UNRELIABLE ∧ FRAMES_REGAIN_TRUST < e3.numFrames then
        ({ e3 with status := e3.status &&& 0xFC }, fh2, decide miniFail)
      else (e3, fh2, decide miniFail)
    else (e3, fh1, decide miniFail)
  let e4 := step4.1
  let fullhash := step4.2.1
  let hashFail := step4.2.2
  if hashFail = true then
    let r := hashFailSecondChance e4 st.lowMemoryMode st.secondCache fullhash cluthash
      dim format maxLevel
    if r.matched = true then
      let secondKey := fullhash ||| (cluthash <<< 32)
      let se := { r.entry with lastFrame := numFlips }
      setTextureHit st (insertKey st.cache cachekey r.updatedPrimary)
        (insertKey r.secondCache secondKey se) se
    else
      setTextureMiss cfg { st with secondCache := r.secondCache } mem cachekey texaddr
        texhash format dim bufw maxLevel cluthash fullhash r.doDelete r.updatedPrimary
        numFlips w h decodedFmt decodedPixels
  else
    let e5 := { e4 with lastFrame := numFlips }
    setTextureHit st (insertKey st.cache cachekey e5) st.secondCache e5

/-- `TextureCache::SetTexture` (TextureCache.cpp lines 1012-1295).  The
decoded level-0 pixels and their destination format are parameters (the
decoders are modelled separately); everything the routine does to the cache
state is modelled.  The very first step computes the guest texture address
and, if it is not a valid guest address, binds a null texture and returns
with nothing else touched. -/
def setTexture (cfg : Config) (st : TextureCacheState) (g : GPUGState)
    (mem : GuestMem) (numFlips : Nat)
    (decodedFmt : GLPixelFmt) (decodedPixels : List Nat) :
    TextureCacheState × TexAction :=
  let texaddr := (g.texaddr 0 &&& 0xFFFFF0) ||| ((g.texbufwidth 0 <<< 8) &&& 0x0F000000)
  if mem.valid texaddr = false then
    ({ st with lastBoundTexture := -1 }, TexAction.bindNull)
  else
    let rawFormat := g.texformat &&& 0xF
    let format := if 11 ≤ rawFormat then 0 else rawFormat
    let hasClut := isTextureFormatIndexed rawFormat
    let st1 :=
      if hasClut = true ∧ st.clutLastFormat ≠ g.clutformat then
        { st with clutLastFormat := g.clutformat }
      else st
    let cluthash := if hasClut then st1.clutHash ^^^ g.clutformat else 0
    let cachekey := (texaddr <<< 32) ||| (if hasClut then cluthash else 0)
    let w := 1 <<< (g.texsize0 &&& 0xF)
    let h := 1 <<< ((g.texsize0 >>> 8) &&& 0xF)
    let bufw := getLevelBufw (g.texbufwidth 0) texaddr
    let maxLevel := (g.texmode >>> 16) &&& 0x7
    let texhash := mem.word texaddr
    let dim := g.texsize0 &&& 0xF0F
    match lookupKey st1.cache cachekey with
    | some e =>
      if e.framebuffer.isSome then
        let af := setTextureFramebuffer cfg e
        ({ st1 with cache := insertKey st1.cache cachekey { e with lastFrame := numFlips },
                    lastBoundTexture := -1,
                    textureFullAlpha := af.2.getD st1.textureFullAlpha }, af.1)
      else
        if entryMatches e dim format maxLevel then
          setTextureFoundMatch cfg st1 mem cachekey texaddr texhash format dim bufw
            maxLevel cluthash e numFlips w h decodedFmt decodedPixels
        else
          setTextureMiss cfg st1 mem cachekey texaddr texhash format dim bufw maxLevel
            cluthash 0 true e numFlips w h decodedFmt decodedPixels
    | none =>
      let e0 := { zeroTexCacheEntry with status := STATUS_HASHING }
      setTextureDecode cfg st1 mem cachekey texaddr texhash format dim bufw maxLevel
        cluthash 0 false e0 numFlips w h decodedFmt decodedPixels

/-- The red component of a 565 color word expanded to 8 bits, written as
the claim reads the decoder: red comes from the low five bits. -/
def dxt1Red (c : Nat) : Int := convert5To8 (c &&& 0x1F)

/-- The green component of a 565 color word expanded to 8 bits (middle six
bits). -/
def dxt1Green (c : Nat) : Int := convert6To8 ((c >>> 5) &&& 0x3F)

/-- The blue component of a 565 color word expanded to 8 bits (top five
bits). -/
def dxt1Blue (c : Nat) : Int := convert5To8 ((c >>> 11) &&& 0x1F)

/-- The amended claim's third palette component: componentwise
`c3 = c1 + ((c2 - c1)/2 - (c2 - c1)/8)` with `/` as floor division
(the source's arithmetic right shifts). -/
def specC3 (comp1 comp2 : Int) : Int :=
  comp1 + ((comp2 - comp1) / 2 - (comp2 - comp1) / 8)

/-- The amended claim's fourth palette component: componentwise
`c4 = c2 - ((c2 - c1)/2 - (c2 - c1)/8)` with `/` as floor division. -/
def specC4 (comp1 comp2 : Int) : Int :=
  comp2 - ((comp2 - comp1) / 2 - (comp2 - comp1) / 8)

/-- The blue byte of a packed decoder output pixel. -/
def pixBlue (p : Int) : Int := p % 256

/-- The green byte of a packed decoder output pixel. -/
def pixGreen (p : Int) : Int := p / 256 % 256

/-- The red byte of a packed decoder output pixel. -/
def pixRed (p : Int) : Int := p / 65536 % 256

/-- The alpha byte of a packed decoder output pixel. -/
def pixAlpha (p : Int) : Int := p / 16777216 % 256

/-! Shared bit-arithmetic lemmas used by the claim proofs. -/

theorem lor_disjoint (k : Nat) {a b : Nat} (ha : 2 ^ k ∣ a) (hb : b < 2 ^ k) : a ||| b = a + b := by
  obtain ⟨c, rfl⟩ := ha
  apply Nat.eq_of_testBit_eq
  intro j
  rw [Nat.testBit_mul_pow_two_add c hb j, Nat.testBit_or]
  by_cases hj : j < k
  · have hzero : Nat.testBit (2 ^ k * c) j = false := by
      rw [Nat.mul_comm, ← Nat.shiftLeft_eq, Nat.testBit_shiftLeft]
      simp [Nat.not_le_of_lt hj]
    simp [hj, hzero]
  · have hbj : Nat.testBit b j = false :=
      Nat.testBit_lt_two_pow
        (Nat.lt_of_lt_of_le hb (Nat.pow_le_pow_right (by norm_num) (Nat.le_of_not_lt hj)))
    rw [Nat.mul_comm, ← Nat.shiftLeft_eq, Nat.testBit_shiftLeft]
    simp [hbj, hj, Nat.le_of_not_lt hj]

theorem and_mask_window (x j k : Nat) :
    x &&& ((2 ^ j - 1) <<< k) = ((x >>> k) % 2 ^ j) <<< k := by
  apply Nat.eq_of_testBit_eq
  intro i
  rw [Nat.testBit_and, Nat.testBit_shiftLeft, Nat.testBit_shiftLeft,
    Nat.testBit_two_pow_sub_one, Nat.testBit_mod_two_pow, Nat.testBit_shiftRight]
  by_cases hik : k ≤ i
  · have hki : k + (i - k) = i := by omega
    rw [hki]
    by_cases hij : i - k < j <;> simp [hik, hij, Bool.and_comm]
  · simp [hik]

theorem and_15_eq_mod (x : Nat) : x &&& 15 = x % 16 := by
  have h := and_mask_window x 4 0
  norm_num [Nat.shiftLeft_eq, Nat.shiftRight_eq_div_pow] at h
  exact h

theorem and_240_eq (x : Nat) : x &&& 240 = x / 16 % 16 * 16 := by
  have h := and_mask_window x 4 4
  norm_num [Nat.shiftLeft_eq, Nat.shiftRight_eq_div_pow] at h
  exact h

theorem and_3840_eq (x : Nat) : x &&& 3840 = x / 256 % 16 * 256 := by
  have h := and_mask_window x 4 8
  norm_num [Nat.shiftLeft_eq, Nat.shiftRight_eq_div_pow] at h
  exact h

theorem and_61440_eq (x : Nat) : x &&& 61440 = x / 4096 % 16 * 4096 := by
  have h := and_mask_window x 4 12
  norm_num [Nat.shiftLeft_eq, Nat.shiftRight_eq_div_pow] at h
  exact h

theorem and_65520_eq (x : Nat) : x &&& 65520 = x / 16 % 4096 * 16 := by
  have h := and_mask_window x 12 4
  norm_num [Nat.shiftLeft_eq, Nat.shiftRight_eq_div_pow] at h
  exact h

theorem shiftLeft_lor (a b k : Nat) : (a ||| b) <<< k = (a <<< k) ||| (b <<< k) := by
  apply Nat.eq_of_testBit_eq
  intro i
  rw [Nat.testBit_shiftLeft, Nat.testBit_or, Nat.testBit_or, Nat.testBit_shiftLeft,
    Nat.testBit_shiftLeft]
  by_cases h : k ≤ i <;> simp [h]

theorem lor_mul_two_pow (a b k : Nat) : a * 2 ^ k ||| b * 2 ^ k = (a ||| b) * 2 ^ k := by
  rw [← Nat.shiftLeft_eq, ← Nat.shiftLeft_eq, ← Nat.shiftLeft_eq, shiftLeft_lor]

/-- C1: the spec demands that `invalidate(addr, size, type)` demote every
RELIABLE primary entry whose declared byte range overlaps
`[addr, addr + size)` to HASHING.  The code's demotion loop can never run:
its key interval `[addr - LARGEST_TEXTURE_SIZE, addr + size +
LARGEST_TEXTURE_SIZE]` is built from byte addresses without the `<< 32`
shift used for every cache key, so every real key (which has the texture
address in its high 32 bits) lies above the interval.  Concretely, an
overlapping RELIABLE entry at guest address 0x08000000 survives
`invalidate(0x08000000, 0x100, NORMAL)` untouched. -/
theorem invalidate_leaves_overlapping_reliable_entry :
    invalidate 0x08000000 0x100 GPUInvalidationType.normal
        [(0x08000000 <<< 32,
          { zeroTexCacheEntry with
              addr := 0x08000000, sizeInRAM := 0x1000, status := STATUS_RELIABLE })] =
      [(0x08000000 <<< 32,
        { zeroTexCacheEntry with
            addr := 0x08000000, sizeInRAM := 0x1000, status := STATUS_RELIABLE })] ∧
    (0x08000000 : Nat) < 0x08000000 + 0x1000 ∧ (0x08000000 : Nat) < 0x08000000 + 0x100 ∧
    ({ zeroTexCacheEntry with
        addr := 0x08000000, sizeInRAM := 0x1000,
        status := STATUS_RELIABLE } : TexCacheEntry).status &&& STATUS_MASK =
      STATUS_RELIABLE := by
  decide

/-- C2: the spec's decimation pass must delete entries older than
`kill_age`, with `kill_age = 60` in low-memory mode.  The code computes
`killAge` but then compares both loops against the constant
`TEXTURE_KILL_AGE = 200`, so in low-memory mode a primary entry with
`lastFrame = 150` at frame 300 (stale by the 60-frame rule, fresh by the
200-frame rule) is kept, contradicting the claim. -/
theorem decimate_lowmem_keeps_stale_entry :
    decimatePass true 300 [(1, { zeroTexCacheEntry with lastFrame := 150 })] [] =
      ([(1, { zeroTexCacheEntry with lastFrame := 150 })], []) ∧
    ({ zeroTexCacheEntry with lastFrame := 150 } : TexCacheEntry).lastFrame +
      TEXTURE_KILL_AGE_LOWMEM < 300 := by
  decide

/-- C8: an `invalidate(addr, size, type)` call leaves every primary entry
whose declared byte range `[entry.addr, entry.addr + entry.sizeInRAM)` does
not overlap `[addr, addr + size)` completely unchanged (every field), and
such an entry is still present, unchanged, in the cache after the call.
The no-overflow side conditions say the two byte ranges do not wrap the
32-bit address space, which holds for all real guest ranges. -/
theorem invalidate_nonoverlapping_entry_unchanged (addr0 size : Nat)
    (ty : GPUInvalidationType) (k : Nat) (e : TexCacheEntry)
    (cache : List (Nat × TexCacheEntry))
    (hsize : (addr0 &&& 0x0FFFFFFF) + size < 4294967296)
    (hent : e.addr + e.sizeInRAM < 4294967296)
    (hsep : (addr0 &&& 0x0FFFFFFF) + size ≤ e.addr ∨
            e.addr + e.sizeInRAM ≤ addr0 &&& 0x0FFFFFFF) :
    invalidateEntry addr0 size ty (k, e) = (k, e) ∧
    ((k, e) ∈ cache → (k, e) ∈ invalidate addr0 size ty cache) := by
  have hmain : invalidateEntry addr0 size ty (k, e) = (k, e) := by
    simp only [invalidateEntry]
    split
    · rw [if_neg]
      rw [Nat.mod_eq_of_lt hsize, Nat.mod_eq_of_lt hent]
      omega
    · rfl
  refine ⟨hmain, fun hmem => ?_⟩
  have := List.mem_map_of_mem (invalidateEntry addr0 size ty) hmem
  rwa [hmain] at this

/-- Witness for C8 at a concrete non-overlapping entry. -/
theorem invalidate_nonoverlapping_entry_unchanged_witness :
    invalidateEntry 0x08000000 0x100 GPUInvalidationType.normal
        (0x08001000 <<< 32, { zeroTexCacheEntry with addr := 0x08001000, sizeInRAM := 0x100 }) =
      (0x08001000 <<< 32, { zeroTexCacheEntry with addr := 0x08001000, sizeInRAM := 0x100 }) ∧
    ((0x08001000 <<< 32, ({ zeroTexCacheEntry with addr := 0x08001000, sizeInRAM := 0x100 } : TexCacheEntry)) ∈
        ([] : List (Nat × TexCacheEntry)) →
      (0x08001000 <<< 32, ({ zeroTexCacheEntry with addr := 0x08001000, sizeInRAM := 0x100 } : TexCacheEntry)) ∈
        invalidate 0x08000000 0x100 GPUInvalidationType.normal []) :=
  invalidate_nonoverlapping_entry_unchanged 0x08000000 0x100 GPUInvalidationType.normal
    (0x08001000 <<< 32) { zeroTexCacheEntry with addr := 0x08001000, sizeInRAM := 0x100 }
    [] (by decide) (by decide) (by decide)

/-- C3 counterexample: the claim says a qualifying secondary-cache hit
refunds one invalidation.  With `numInvalidated = 5` (within the claimed
2..128 window, low-memory off) and a geometry-matching secondary hit, the
lookup does swap to the secondary entry and treats it as a hit, but the
invalidation count stays 5 instead of dropping to 4: the refund is guarded
by `numInvalidated > 8`. -/
theorem second_chance_hit_without_refund :
    (hashFailSecondChance
        { zeroTexCacheEntry with numInvalidated := 5, fullhash := 0xAA, cluthash := 0xBB }
        false
        [(0x1234 ||| (0x99 <<< 32),
          { zeroTexCacheEntry with dim := 0x404, format := 4, texture := 7 })]
        0x1234 0x99 0x404 4 0).matched = true ∧
    (hashFailSecondChance
        { zeroTexCacheEntry with numInvalidated := 5, fullhash := 0xAA, cluthash := 0xBB }
        false
        [(0x1234 ||| (0x99 <<< 32),
          { zeroTexCacheEntry with dim := 0x404, format := 4, texture := 7 })]
        0x1234 0x99 0x404 4 0).entry =
      { zeroTexCacheEntry with dim := 0x404, format := 4, texture := 7 } ∧
    ¬ (hashFailSecondChance
        { zeroTexCacheEntry with numInvalidated := 5, fullhash := 0xAA, cluthash := 0xBB }
        false
        [(0x1234 ||| (0x99 <<< 32),
          { zeroTexCacheEntry with dim := 0x404, format := 4, texture := 7 })]
        0x1234 0x99 0x404 4 0).updatedPrimary.numInvalidated = 5 - 1 := by
  decide

/-- C3 as amended: on a hash-failure miss with `2 < numInvalidated < 128`
and low-memory mode off, a secondary-cache hit at `(full_hash, clut_hash)`
with matching geometry swaps to the secondary entry and treats it as a hit,
and it refunds one invalidation only when the entry's invalidation count
exceeds 8 (otherwise the count is left unchanged); the secondary cache and
the pending-delete flag are untouched, and the primary entry is marked
UNRELIABLE with its frame counter reset. -/
theorem second_chance_hit_refund_only_over_eight (e se : TexCacheEntry) (low : Bool)
    (second : List (Nat × TexCacheEntry)) (fullhash cluthash dim format maxLevel : Nat)
    (hlo : 2 < e.numInvalidated) (hhi : e.numInvalidated < 128) (hlow : low = false)
    (hfind : lookupKey second (fullhash ||| (cluthash <<< 32)) = some se)
    (hgeom : entryMatches se dim format maxLevel = true) :
    (hashFailSecondChance e low second fullhash cluthash dim format maxLevel).matched = true ∧
    (hashFailSecondChance e low second fullhash cluthash dim format maxLevel).entry = se ∧
    (hashFailSecondChance e low second fullhash cluthash dim format maxLevel).usedSecond = true ∧
    (hashFailSecondChance e low second fullhash cluthash dim format maxLevel).secondCache = second ∧
    (hashFailSecondChance e low second fullhash cluthash dim format maxLevel).doDelete = true ∧
    (hashFailSecondChance e low second fullhash cluthash dim format
        maxLevel).updatedPrimary.numInvalidated =
      (if 8 < e.numInvalidated then e.numInvalidated - 1 else e.numInvalidated) ∧
    (hashFailSecondChance e low second fullhash cluthash dim format
        maxLevel).updatedPrimary.status = e.status ||| STATUS_UNRELIABLE ∧
    (hashFailSecondChance e low second fullhash cluthash dim format
        maxLevel).updatedPrimary.numFrames = 0 := by
  subst hlow
  simp only [hashFailSecondChance]
  rw [if_pos ⟨hlo, hhi, trivial⟩, hfind]
  simp only [hgeom, if_true]
  by_cases h8 : 8 < e.numInvalidated <;> simp [h8]

/-- Witness for C3's amended theorem: a concrete hit with
`numInvalidated = 9`, where the refund does fire. -/
theorem second_chance_hit_refund_only_over_eight_witness :
    (hashFailSecondChance { zeroTexCacheEntry with numInvalidated := 9 } false
        [(0x77, { zeroTexCacheEntry with dim := 0x505, format := 5, texture := 3 })]
        0x77 0 0x505 5 0).matched = true ∧
    (hashFailSecondChance { zeroTexCacheEntry with numInvalidated := 9 } false
        [(0x77, { zeroTexCacheEntry with dim := 0x505, format := 5, texture := 3 })]
        0x77 0 0x505 5 0).entry =
      { zeroTexCacheEntry with dim := 0x505, format := 5, texture := 3 } ∧
    (hashFailSecondChance { zeroTexCacheEntry with numInvalidated := 9 } false
        [(0x77, { zeroTexCacheEntry with dim := 0x505, format := 5, texture := 3 })]
        0x77 0 0x505 5 0).usedSecond = true ∧
    (hashFailSecondChance { zeroTexCacheEntry with numInvalidated := 9 } false
        [(0x77, { zeroTexCacheEntry with dim := 0x505, format := 5, texture := 3 })]
        0x77 0 0x505 5 0).secondCache =
      [(0x77, { zeroTexCacheEntry with dim := 0x505, format := 5, texture := 3 })] ∧
    (hashFailSecondChance { zeroTexCacheEntry with numInvalidated := 9 } false
        [(0x77, { zeroTexCacheEntry with dim := 0x505, format := 5, texture := 3 })]
        0x77 0 0x505 5 0).doDelete = true ∧
    (hashFailSecondChance { zeroTexCacheEntry with numInvalidated := 9 } false
        [(0x77, { zeroTexCacheEntry with dim := 0x505, format := 5, texture := 3 })]
        0x77 0 0x505 5 0).updatedPrimary.numInvalidated =
      (if 8 < ({ zeroTexCacheEntry with numInvalidated := 9 } : TexCacheEntry).numInvalidated then
        ({ zeroTexCacheEntry with numInvalidated := 9 } : TexCacheEntry).numInvalidated - 1
      else ({ zeroTexCacheEntry with numInvalidated := 9 } : TexCacheEntry).numInvalidated) ∧
    (hashFailSecondChance { zeroTexCacheEntry with numInvalidated := 9 } false
        [(0x77, { zeroTexCacheEntry with dim := 0x505, format := 5, texture := 3 })]
        0x77 0 0x505 5 0).updatedPrimary.status =
      ({ zeroTexCacheEntry with numInvalidated := 9 } : TexCacheEntry).status ||| STATUS_UNRELIABLE ∧
    (hashFailSecondChance { zeroTexCacheEntry with numInvalidated := 9 } false
        [(0x77, { zeroTexCacheEntry with dim := 0x505, format := 5, texture := 3 })]
        0x77 0 0x505 5 0).updatedPrimary.numFrames = 0 :=
  second_chance_hit_refund_only_over_eight
    { zeroTexCacheEntry with numInvalidated := 9 }
    { zeroTexCacheEntry with dim := 0x505, format := 5, texture := 3 }
    false [(0x77, { zeroTexCacheEntry with dim := 0x505, format := 5, texture := 3 })]
    0x77 0 0x505 5 0 (by decide) (by decide) rfl (by decide) (by decide)

/-- C4 counterexample: the claim says the aligned SIMD path of
`quick_tex_hash` always returns the digest of the scalar fallback.  On the
32-byte region with words `[3, 1, 0, ...]` the scalar fold gives
`(0 + 3) ^ 1 = 2` while the lane-parallel SSE fold gives `3 + 1 = 4`. -/
theorem quick_tex_hash_simd_scalar_mismatch :
    quickTexHashSimd [3, 1, 0, 0, 0, 0, 0, 0] ≠
      quickTexHashScalar [3, 1, 0, 0, 0, 0, 0, 0] := by
  decide

/-- C4 as amended: both hash implementations are deterministic pure
functions of the input region, but the aligned SIMD paths of
`quick_tex_hash` and `quick_clut_hash` do not in general return the scalar
fallback's digest - the returned value depends on which implementation path
is taken (the SIMD CLUT hash, for instance, never reads the odd-indexed
words). -/
theorem quick_hashes_simd_path_dependent :
    quickTexHashSimd [1, 1, 0, 0, 0, 0, 0, 0] ≠
      quickTexHashScalar [1, 1, 0, 0, 0, 0, 0, 0] ∧
    quickClutHashSimd [0, 1, 0, 0, 0, 0, 0, 0] ≠
      quickClutHashScalar [0, 1, 0, 0, 0, 0, 0, 0] := by
  decide

/-- C7: when the computed guest texture address is not a valid guest
address, `SetTexture` binds the null texture and returns immediately: the
resulting state differs from the input state only in `lastBoundTexture`, so
the primary cache, the secondary cache and every entry are untouched, and
the emitted action is the null bind (the call returns normally - nothing
fatal). -/
theorem set_texture_invalid_address_binds_null (cfg : Config)
    (st : TextureCacheState) (g : GPUGState) (mem : GuestMem) (numFlips : Nat)
    (decodedFmt : GLPixelFmt) (decodedPixels : List Nat)
    (hinvalid : mem.valid ((g.texaddr 0 &&& 0xFFFFF0) |||
        ((g.texbufwidth 0 <<< 8) &&& 0x0F000000)) = false) :
    setTexture cfg st g mem numFlips decodedFmt decodedPixels =
      ({ st with lastBoundTexture := -1 }, TexAction.bindNull) := by
  simp only [setTexture]
  rw [if_pos hinvalid]

/-- Witness for C7: a memory model where no address is valid. -/
theorem set_texture_invalid_address_binds_null_witness :
    setTexture { iRenderingMode := 1, iTexScalingLevel := 1, bMipMap := true }
        { cache := [(5, zeroTexCacheEntry)], secondCache := [], fbCache := [],
          lastBoundTexture := 9, lowMemoryMode := false, clutHash := 0,
          clutLastFormat := 0, textureFullAlpha := false, nextTexture := 1 }
        { texaddr := fun _ => 0x08000000, texbufwidth := fun _ => 16,
          texsize0 := 0x0404, texformat := 3, texmode := 0, clutformat := 0 }
        { valid := fun _ => false, word := fun _ => 0 } 7 GLPixelFmt.u8888 [] =
      ({ cache := [(5, zeroTexCacheEntry)], secondCache := [], fbCache := [],
         lastBoundTexture := -1, lowMemoryMode := false, clutHash := 0,
         clutLastFormat := 0, textureFullAlpha := false, nextTexture := 1 },
       TexAction.bindNull) :=
  set_texture_invalid_address_binds_null
    { iRenderingMode := 1, iTexScalingLevel := 1, bMipMap := true }
    { cache := [(5, zeroTexCacheEntry)], secondCache := [], fbCache := [],
      lastBoundTexture := 9, lowMemoryMode := false, clutHash := 0,
      clutLastFormat := 0, textureFullAlpha := false, nextTexture := 1 }
    { texaddr := fun _ => 0x08000000, texbufwidth := fun _ => 16,
      texsize0 := 0x0404, texformat := 3, texmode := 0, clutformat := 0 }
    { valid := fun _ => false, word := fun _ => 0 } 7 GLPixelFmt.u8888 [] rfl

/-- C9: decoding a non-swizzled `GE_TFMT_8888` level whose `bufw` equals its
width `w` (with `bufw ≥ 4`) takes the zero-copy path: the decoded buffer is
the guest memory itself (`Memory::GetPointer(texaddr)`), so no color
conversion is applied and no row rectification is performed. -/
theorem decode_8888_zero_copy (mem : GuestMem) (texaddr bufw0 w h : Nat)
    (hw : w = bufw0) (hb : 4 ≤ bufw0) :
    decodeTextureLevel8888 mem texaddr bufw0 w h false = DecodedBuf.guest texaddr := by
  subst hw
  simp only [decodeTextureLevel8888]
  rw [if_neg (by omega : ¬ w < 4)]
  simp

/-- Witness for C9 at a concrete 16-wide level. -/
theorem decode_8888_zero_copy_witness :
    decodeTextureLevel8888 { valid := fun _ => true, word := fun a => a }
        0x08000000 16 16 4 false = DecodedBuf.guest 0x08000000 :=
  decode_8888_zero_copy { valid := fun _ => true, word := fun a => a }
    0x08000000 16 16 4 rfl (by decide)

/-- C10: when the destination pixel format is RGB565 the alpha scan
classifies STATUS_ALPHA_FULL for every pixel buffer whatever its contents
(the 565 branch of `CheckAlpha` examines nothing), and for an entry with
`numInvalidated = 0` (whose alpha bits were just cleared, as `SetTexture`
does before decoding) the load leaves the status reporting
`textureFullAlpha = true`. -/
theorem rgb565_decode_reports_full_alpha (pixelData : List Nat) (w h : Nat)
    (e : TexCacheEntry) (hinv : e.numInvalidated = 0) :
    checkAlpha pixelData GLPixelFmt.u565 w h = STATUS_ALPHA_FULL ∧
    texFullAlpha ((loadTextureLevelAlpha { e with status := e.status &&& 0xF3 }
        pixelData GLPixelFmt.u565 w h).status) = true := by
  refine ⟨rfl, ?_⟩
  simp only [loadTextureLevelAlpha, hinv, if_pos]
  have hca : checkAlpha pixelData GLPixelFmt.u565 w h = 0 := rfl
  simp only [texFullAlpha, STATUS_ALPHA_MASK, STATUS_ALPHA_FULL, hca, Nat.or_zero]
  rw [Nat.and_assoc]
  norm_num [show (243 : Nat) &&& 12 = 0 from rfl]

/-- Witness for C10 with a pixel buffer that is entirely transparent in any
format that does carry alpha. -/
theorem rgb565_decode_reports_full_alpha_witness :
    checkAlpha [0, 0, 0, 0] GLPixelFmt.u565 2 2 = STATUS_ALPHA_FULL ∧
    texFullAlpha ((loadTextureLevelAlpha
        { zeroTexCacheEntry with status := zeroTexCacheEntry.status &&& 0xF3 }
        [0, 0, 0, 0] GLPixelFmt.u565 2 2).status) = true :=
  rgb565_decode_reports_full_alpha [0, 0, 0, 0] 2 2 zeroTexCacheEntry rfl

/-- C5 counterexample: with the palette `[0x0FF0, 1, 2, ..., 15]` the
alpha-linear fast path is detected (the detection exempts entry 0's high
bits - "Alpha 0 doesn't matter"), yet decoding the index bytes `[0, 0]`
through the fast path yields pixels `0x0000` where the slow path yields
`clut[0] = 0x0FF0`: the outputs are not equal pixel-for-pixel. -/
theorem clut4_fast_path_pixel_mismatch :
    clutAlphaLinear
        (fun i => [0x0FF0, 1, 2, 3, 4, 5, 6, 7, 8, 9, 10, 11, 12, 13, 14, 15].getD i 0) = true ∧
    deIndexTexture4Optimal
        (clutAlphaLinearColor
          (fun i => [0x0FF0, 1, 2, 3, 4, 5, 6, 7, 8, 9, 10, 11, 12, 13, 14, 15].getD i 0))
        [0, 0] ≠
      deIndexTexture4
        (fun i => [0x0FF0, 1, 2, 3, 4, 5, 6, 7, 8, 9, 10, 11, 12, 13, 14, 15].getD i 0)
        [0, 0] := by
  decide

theorem list_pair_induction (P : List Nat → Prop) (h0 : P []) (h1 : ∀ b, P [b])
    (h2 : ∀ b0 b1 rest, P rest → P (b0 :: b1 :: rest)) : ∀ l, P l
  | [] => h0
  | [b] => h1 b
  | b0 :: b1 :: rest => h2 b0 b1 rest (list_pair_induction P h0 h1 h2 rest)

theorem deindex_pair_words (C u : Nat) (_hu : u < 65536) (hC16 : C % 16 = 0)
    (hClt : C ≤ 65520) :
    ((C <<< 16) ||| C) ||| ((u &&& 240) <<< 12) ||| ((u &&& 15) >>> 0) =
      (C + u / 16 % 16) * 65536 + (C + u % 16) ∧
    ((C <<< 16) ||| C) ||| ((u &&& 61440) <<< 4) ||| ((u &&& 3840) >>> 8) =
      (C + u / 4096 % 16) * 65536 + (C + u / 256 % 16) := by
  have hC16' : (2 : Nat) ^ 4 ∣ C := by
    refine Nat.dvd_of_mod_eq_zero ?_
    norm_num [hC16]
  have hshift : C <<< 16 = C * 65536 := by rw [Nat.shiftLeft_eq]; try norm_num
  have main : ∀ nhi nlo : Nat, nhi < 16 → nlo < 16 →
      (C * 65536 ||| C) ||| nhi * 65536 ||| nlo = (C + nhi) * 65536 + (C + nlo) := by
    intro nhi nlo hhi hlo
    have e1 : (C * 65536 ||| C) ||| nhi * 65536 = (C * 65536 ||| nhi * 65536) ||| C := by
      rw [Nat.or_assoc, Nat.or_comm C (nhi * 65536), ← Nat.or_assoc]
    have e2 : C * 65536 ||| nhi * 65536 = (C ||| nhi) * 65536 := by
      have h := lor_mul_two_pow C nhi 16
      norm_num at h
      exact h
    have e3 : C ||| nhi = C + nhi := lor_disjoint 4 hC16' (by norm_num; omega)
    have e4 : C ||| nlo = C + nlo := lor_disjoint 4 hC16' (by norm_num; omega)
    rw [e1, e2, e3, Nat.or_assoc, e4]
    refine lor_disjoint 16 ⟨C + nhi, by ring⟩ (by norm_num; omega)
  constructor
  · rw [and_240_eq, and_15_eq_mod, Nat.shiftRight_zero, hshift]
    have hsl : (u / 16 % 16 * 16) <<< 12 = u / 16 % 16 * 65536 := by
      rw [Nat.shiftLeft_eq]; try ring
    rw [hsl]
    exact main (u / 16 % 16) (u % 16) (by omega) (by omega)
  · rw [and_61440_eq, and_3840_eq, hshift]
    have hsl : (u / 4096 % 16 * 4096) <<< 4 = u / 4096 % 16 * 65536 := by
      rw [Nat.shiftLeft_eq]; try ring
    have hsr : (u / 256 % 16 * 256) >>> 8 = u / 256 % 16 := by
      rw [Nat.shiftRight_eq_div_pow]; omega
    rw [hsl, hsr]
    exact main (u / 4096 % 16) (u / 256 % 16) (by omega) (by omega)

theorem deindex_pixel_values (C b0 b1 : Nat) (hC : C ≤ 65520)
    (hb0 : b0 < 256) (hb1 : b1 < 256) :
    ((C + (b0 + 256 * b1) / 16 % 16) * 65536 + (C + (b0 + 256 * b1) % 16)) % 65536 =
      C + b0 % 16 ∧
    (((C + (b0 + 256 * b1) / 16 % 16) * 65536 + (C + (b0 + 256 * b1) % 16)) >>> 16) % 65536 =
      C + b0 / 16 ∧
    ((C + (b0 + 256 * b1) / 4096 % 16) * 65536 + (C + (b0 + 256 * b1) / 256 % 16)) % 65536 =
      C + b1 % 16 ∧
    (((C + (b0 + 256 * b1) / 4096 % 16) * 65536 + (C + (b0 + 256 * b1) / 256 % 16)) >>> 16) % 65536 =
      C + b1 / 16 := by
  have h2p : (2 : Nat) ^ 16 = 65536 := by norm_num
  refine ⟨by omega, ?_, by omega, ?_⟩
  · have hdiv : ((C + (b0 + 256 * b1) / 16 % 16) * 65536 + (C + (b0 + 256 * b1) % 16)) / 65536 =
        C + b0 / 16 := by omega
    rw [Nat.shiftRight_eq_div_pow, h2p, hdiv]
    omega
  · have hdiv : ((C + (b0 + 256 * b1) / 4096 % 16) * 65536 +
        (C + (b0 + 256 * b1) / 256 % 16)) / 65536 = C + b1 / 16 := by omega
    rw [Nat.shiftRight_eq_div_pow, h2p, hdiv]
    omega

theorem deindex_nibbles (b : Nat) (hb : b < 256) :
    (b >>> 0) &&& 15 = b % 16 ∧ (b >>> 4) &&& 15 = b / 16 := by
  constructor
  · rw [Nat.shiftRight_zero, and_15_eq_mod]
  · rw [Nat.shiftRight_eq_div_pow, and_15_eq_mod]; omega

set_option maxHeartbeats 1000000 in
/-- C5 as amended: the fast-path CLUT4 decode equals the slow-path decode
pixel-for-pixel under the detected alpha-linear conditions strengthened to
cover palette entry 0 as well: ABGR4444 palette with simple indices,
`clut[i] & 0xF = i` for every `i`, and `clut[i] & 0xFFF0` equal to the
common color for every entry including entry 0 (the detection as coded
exempts entry 0, which is exactly where the two decodes can differ). -/
theorem clut4_fast_path_matches_slow_path (clut : Nat → Nat) (bytes : List Nat)
    (hc : ∀ i, i < 16 → clut i < 65536)
    (hdet : clutAlphaLinear clut = true)
    (h0 : clut 0 &&& 0xFFF0 = clutAlphaLinearColor clut)
    (hbytes : ∀ b ∈ bytes, b < 256)
    (heven : bytes.length % 2 = 0) :
    deIndexTexture4Optimal (clutAlphaLinearColor clut) bytes =
      deIndexTexture4 clut bytes := by
  have hCdef : clutAlphaLinearColor clut = clut 15 &&& 65520 := rfl
  have hC16 : clutAlphaLinearColor clut % 16 = 0 := by
    rw [hCdef, and_65520_eq]; omega
  have hClt : clutAlphaLinearColor clut ≤ 65520 := by
    rw [hCdef, and_65520_eq]
    have : clut 15 / 16 % 4096 ≤ 4095 := by omega
    omega
  have hcv : ∀ v, v < 16 → clut v = clutAlphaLinearColor clut + v := by
    intro v hv
    have hall := hdet
    unfold clutAlphaLinear at hall
    rw [List.all_eq_true] at hall
    have h1 := hall v (List.mem_range.mpr hv)
    simp only [Bool.and_eq_true, Bool.or_eq_true, beq_iff_eq] at h1
    have hlow : clut v % 16 = v := by rw [← and_15_eq_mod]; exact h1.1
    have hhigh : clut v &&& 65520 = clutAlphaLinearColor clut := by
      rcases h1.2 with hv0 | hok
      · rw [hv0]; exact h0
      · exact hok
    have hwin : clut v / 16 % 4096 * 16 = clutAlphaLinearColor clut := by
      rw [← and_65520_eq]; exact hhigh
    have hsz := hc v hv
    omega
  clear hCdef hdet h0 hc
  revert hC16 hClt hcv
  generalize clutAlphaLinearColor clut = C
  intro hC16 hClt hcv
  refine list_pair_induction
    (fun bs => (∀ b ∈ bs, b < 256) → bs.length % 2 = 0 →
      deIndexTexture4Optimal C bs = deIndexTexture4 clut bs)
    ?_ ?_ ?_ bytes hbytes heven
  · intro _ _; rfl
  · intro b _ hlen
    simp at hlen
  · intro b0 b1 rest ih hlt hlen
    have hb0 : b0 < 256 := hlt b0 (by simp)
    have hb1 : b1 < 256 := hlt b1 (by simp)
    have hrest : ∀ b ∈ rest, b < 256 := fun b hb => hlt b (by simp [hb])
    have hlen' : rest.length % 2 = 0 := by
      simp only [List.length_cons] at hlen
      omega
    have hpair := deindex_pair_words C (b0 + 256 * b1) (by omega) hC16 hClt
    obtain ⟨hx1, hx2, hx3, hx4⟩ := deindex_pixel_values C b0 b1 hClt hb0 hb1
    obtain ⟨hr1, hr2⟩ := deindex_nibbles b0 hb0
    obtain ⟨hr3, hr4⟩ := deindex_nibbles b1 hb1
    simp only [deIndexTexture4Optimal, deIndexTexture4]
    rw [hpair.1, hpair.2]
    rw [hr1, hr2, hr3, hr4, hcv (b0 % 16) (by omega), hcv (b0 / 16) (by omega),
      hcv (b1 % 16) (by omega), hcv (b1 / 16) (by omega)]
    rw [hx1, hx2, hx3, hx4, ih hrest hlen']

/-- Witness for C5's amended theorem: the palette `clut[i] = 0x0230 + i`
satisfies the strengthened conditions and both decodes agree on the index
bytes `[0x21, 0x43]`. -/
theorem clut4_fast_path_matches_slow_path_witness :
    deIndexTexture4Optimal (clutAlphaLinearColor (fun i => 0x0230 + i)) [0x21, 0x43] =
      deIndexTexture4 (fun i => 0x0230 + i) [0x21, 0x43] :=
  clut4_fast_path_matches_slow_path (fun i => 0x0230 + i) [0x21, 0x43]
    (by decide) (by decide) (by decide)
    (by intro b hb; simp at hb; rcases hb with h | h <;> simp [h])
    (by decide)

/-- C6 counterexample: the claim's formulas use C integer division, which
truncates toward zero, but the decoder uses arithmetic shifts, which floor.
For the block with `color1 = 0x4000` (blue component 66 after 5-to-8
expansion), `color2 = 0` and an index byte selecting palette entry 2, the
decoded blue byte is 42, while the claimed formula
`c1 + ((c2 - c1)/2 - (c2 - c1)/8)` with truncating division gives 41. -/
theorem dxt1_truncating_division_mismatch :
    (({ lines := [2, 0, 0, 0], color1 := 0x4000, color2 := 0 } : DXT1Block).color2 <
      ({ lines := [2, 0, 0, 0], color1 := 0x4000, color2 := 0 } : DXT1Block).color1) ∧
    dxt1Blue (0x4000 : Nat) = 66 ∧ dxt1Blue (0 : Nat) = 0 ∧
    pixBlue (dxt1Pixel { lines := [2, 0, 0, 0], color1 := 0x4000, color2 := 0 } false 0 0) = 42 ∧
    (66 : Int) + (Int.tdiv ((0 : Int) - 66) 2 - Int.tdiv ((0 : Int) - 66) 8) = 41 ∧
    (42 : Int) ≠ 41 := by
  decide

theorem convert5To8_lt (v : Nat) (hv : v < 32) : convert5To8 v < 256 := by
  unfold convert5To8
  have h1 : v <<< 3 < 2 ^ 8 := by rw [Nat.shiftLeft_eq]; omega
  have h2 : v >>> 2 < 2 ^ 8 := by rw [Nat.shiftRight_eq_div_pow]; omega
  have h3 := Nat.or_lt_two_pow h1 h2
  omega

theorem convert6To8_lt (v : Nat) (hv : v < 64) : convert6To8 v < 256 := by
  unfold convert6To8
  have h1 : v <<< 2 < 2 ^ 8 := by rw [Nat.shiftLeft_eq]; omega
  have h2 : v >>> 4 < 2 ^ 8 := by rw [Nat.shiftRight_eq_div_pow]; omega
  have h3 := Nat.or_lt_two_pow h1 h2
  omega

theorem dxt1_565_bounds (c : Nat) :
    (0 ≤ dxt1Red c ∧ dxt1Red c ≤ 255) ∧ (0 ≤ dxt1Green c ∧ dxt1Green c ≤ 255) ∧
    (0 ≤ dxt1Blue c ∧ dxt1Blue c ≤ 255) := by
  have h1 := convert5To8_lt (c &&& 31) (Nat.lt_of_le_of_lt Nat.and_le_right (by norm_num))
  have h2 := convert6To8_lt ((c >>> 5) &&& 63) (Nat.lt_of_le_of_lt Nat.and_le_right (by norm_num))
  have h3 := convert5To8_lt ((c >>> 11) &&& 31) (Nat.lt_of_le_of_lt Nat.and_le_right (by norm_num))
  simp only [dxt1Red, dxt1Green, dxt1Blue]
  omega

/-- Bounds justifying the packed representation: the interpolated palette
components stay inside `[0, 255]`. -/
theorem dxt1_component_bounds (a b : Int) (ha : 0 ≤ a ∧ a ≤ 255) (hb : 0 ≤ b ∧ b ≤ 255) :
    (0 ≤ specC3 a b ∧ specC3 a b ≤ 255) ∧ (0 ≤ specC4 a b ∧ specC4 a b ≤ 255) := by
  simp only [specC3, specC4]
  omega

theorem makecol_bytes (r g b a : Int) (hr : 0 ≤ r ∧ r ≤ 255) (hg : 0 ≤ g ∧ g ≤ 255)
    (hb : 0 ≤ b ∧ b ≤ 255) (ha : 0 ≤ a ∧ a ≤ 255) :
    pixBlue (makecol r g b a) = b ∧ pixGreen (makecol r g b a) = g ∧
    pixRed (makecol r g b a) = r ∧ pixAlpha (makecol r g b a) = a := by
  simp only [pixBlue, pixGreen, pixRed, pixAlpha, makecol]
  omega

theorem asr_one (z : Int) : asr z 1 = z / 2 := by
  norm_num [asr]

theorem asr_three (z : Int) : asr z 3 = z / 8 := by
  norm_num [asr]

theorem dxt1Colors_pos (blk : DXT1Block) (h : blk.color2 < blk.color1) :
    dxt1Colors blk false =
      [makecol (dxt1Red blk.color1) (dxt1Green blk.color1) (dxt1Blue blk.color1) 255,
       makecol (dxt1Red blk.color2) (dxt1Green blk.color2) (dxt1Blue blk.color2) 255,
       makecol (specC3 (dxt1Red blk.color1) (dxt1Red blk.color2))
         (specC3 (dxt1Green blk.color1) (dxt1Green blk.color2))
         (specC3 (dxt1Blue blk.color1) (dxt1Blue blk.color2)) 255,
       makecol (specC4 (dxt1Red blk.color1) (dxt1Red blk.color2))
         (specC4 (dxt1Green blk.color1) (dxt1Green blk.color2))
         (specC4 (dxt1Blue blk.color1) (dxt1Blue blk.color2)) 255] := by
  simp only [dxt1Colors]
  rw [if_pos (Or.inl h)]
  simp only [specC3, specC4, dxt1Red, dxt1Green, dxt1Blue, asr_one, asr_three]

theorem dxt1Colors_neg (blk : DXT1Block) (h : ¬ blk.color2 < blk.color1) :
    dxt1Colors blk false =
      [makecol (dxt1Red blk.color1) (dxt1Green blk.color1) (dxt1Blue blk.color1) 255,
       makecol (dxt1Red blk.color2) (dxt1Green blk.color2) (dxt1Blue blk.color2) 255,
       makecol ((dxt1Red blk.color1 + dxt1Red blk.color2 + 1) / 2)
         ((dxt1Green blk.color1 + dxt1Green blk.color2 + 1) / 2)
         ((dxt1Blue blk.color1 + dxt1Blue blk.color2 + 1) / 2) 255,
       makecol (dxt1Red blk.color2) (dxt1Green blk.color2) (dxt1Blue blk.color2) 0] := by
  simp only [dxt1Colors]
  rw [if_neg (by simp [h])]
  simp only [dxt1Red, dxt1Green, dxt1Blue]

set_option maxHeartbeats 1000000 in
/-- C6 as amended: for every DXT1 block, each texel selects among the four
palette colors by its 2-bit index (the row byte shifted right twice per
texel), and when `c1 > c2` the two interpolated colors are computed
componentwise with floor division (the source's arithmetic shifts):
`c3 = c1 + ((c2 - c1)/2 - (c2 - c1)/8)`, `c4 = c2 - ((c2 - c1)/2 -
(c2 - c1)/8)`, all four palette colors fully opaque; when `c1 ≤ c2`,
`c3 = (c1 + c2 + 1)/2` componentwise and `c4 = c2` with alpha 0. -/
theorem dxt1_decode_characterization (blk : DXT1Block) (x y : Nat)
    (hx : x < 4) (hy : y < 4) :
    dxt1Pixel blk false x y =
      (dxt1Colors blk false).getD ((blk.lines.getD y 0 >>> (2 * x)) &&& 3) 0 ∧
    (blk.color2 < blk.color1 →
      (∀ i, i < 4 → pixAlpha ((dxt1Colors blk false).getD i 0) = 255) ∧
      pixRed ((dxt1Colors blk false).getD 2 0) = specC3 (dxt1Red blk.color1) (dxt1Red blk.color2) ∧
      pixGreen ((dxt1Colors blk false).getD 2 0) =
        specC3 (dxt1Green blk.color1) (dxt1Green blk.color2) ∧
      pixBlue ((dxt1Colors blk false).getD 2 0) =
        specC3 (dxt1Blue blk.color1) (dxt1Blue blk.color2) ∧
      pixRed ((dxt1Colors blk false).getD 3 0) = specC4 (dxt1Red blk.color1) (dxt1Red blk.color2) ∧
      pixGreen ((dxt1Colors blk false).getD 3 0) =
        specC4 (dxt1Green blk.color1) (dxt1Green blk.color2) ∧
      pixBlue ((dxt1Colors blk false).getD 3 0) =
        specC4 (dxt1Blue blk.color1) (dxt1Blue blk.color2)) ∧
    (¬ blk.color2 < blk.color1 →
      pixAlpha ((dxt1Colors blk false).getD 2 0) = 255 ∧
      pixAlpha ((dxt1Colors blk false).getD 3 0) = 0 ∧
      pixRed ((dxt1Colors blk false).getD 2 0) =
        (dxt1Red blk.color1 + dxt1Red blk.color2 + 1) / 2 ∧
      pixGreen ((dxt1Colors blk false).getD 2 0) =
        (dxt1Green blk.color1 + dxt1Green blk.color2 + 1) / 2 ∧
      pixBlue ((dxt1Colors blk false).getD 2 0) =
        (dxt1Blue blk.color1 + dxt1Blue blk.color2 + 1) / 2 ∧
      pixRed ((dxt1Colors blk false).getD 3 0) = dxt1Red blk.color2 ∧
      pixGreen ((dxt1Colors blk false).getD 3 0) = dxt1Green blk.color2 ∧
      pixBlue ((dxt1Colors blk false).getD 3 0) = dxt1Blue blk.color2) := by
  obtain ⟨hr1, hg1, hb1⟩ := dxt1_565_bounds blk.color1
  obtain ⟨hr2, hg2, hb2⟩ := dxt1_565_bounds blk.color2
  have h255 : (0 : Int) ≤ 255 ∧ (255 : Int) ≤ 255 := by norm_num
  have h0 : (0 : Int) ≤ 0 ∧ (0 : Int) ≤ 255 := by norm_num
  refine ⟨?_, ?_, ?_⟩
  · have hdecode : decodeDXT1Block blk false =
        [dxt1RowGo (dxt1Colors blk false) 4 (blk.lines.getD 0 0),
         dxt1RowGo (dxt1Colors blk false) 4 (blk.lines.getD 1 0),
         dxt1RowGo (dxt1Colors blk false) 4 (blk.lines.getD 2 0),
         dxt1RowGo (dxt1Colors blk false) 4 (blk.lines.getD 3 0)] := rfl
    have hrow : ∀ (cs : List Int) (v : Nat), dxt1RowGo cs 4 v =
        [cs.getD (v &&& 3) 0, cs.getD ((v >>> 2) &&& 3) 0,
         cs.getD ((v >>> 2 >>> 2) &&& 3) 0, cs.getD ((v >>> 2 >>> 2 >>> 2) &&& 3) 0] :=
      fun cs v => rfl
    have hshift4 : ∀ v : Nat, v >>> 2 >>> 2 = v >>> 4 := by
      intro v; rw [← Nat.shiftRight_add]
    have hshift6 : ∀ v : Nat, v >>> 4 >>> 2 = v >>> 6 := by
      intro v; rw [← Nat.shiftRight_add]
    unfold dxt1Pixel
    rw [hdecode]
    interval_cases y <;> interval_cases x <;>
      simp [hrow, hshift4, hshift6, List.getD]
  · intro h
    rw [dxt1Colors_pos blk h]
    obtain ⟨hc3r, hc4r⟩ := dxt1_component_bounds (dxt1Red blk.color1) (dxt1Red blk.color2) hr1 hr2
    obtain ⟨hc3g, hc4g⟩ :=
      dxt1_component_bounds (dxt1Green blk.color1) (dxt1Green blk.color2) hg1 hg2
    obtain ⟨hc3b, hc4b⟩ := dxt1_component_bounds (dxt1Blue blk.color1) (dxt1Blue blk.color2) hb1 hb2
    refine ⟨?_, ?_, ?_, ?_, ?_, ?_, ?_⟩
    · intro i hi
      interval_cases i <;> simp only [List.getD_cons_zero, List.getD_cons_succ]
      · exact (makecol_bytes _ _ _ _ hr1 hg1 hb1 h255).2.2.2
      · exact (makecol_bytes _ _ _ _ hr2 hg2 hb2 h255).2.2.2
      · exact (makecol_bytes _ _ _ _ hc3r hc3g hc3b h255).2.2.2
      · exact (makecol_bytes _ _ _ _ hc4r hc4g hc4b h255).2.2.2
    · exact (makecol_bytes _ _ _ _ hc3r hc3g hc3b h255).2.2.1
    · exact (makecol_bytes _ _ _ _ hc3r hc3g hc3b h255).2.1
    · exact (makecol_bytes _ _ _ _ hc3r hc3g hc3b h255).1
    · exact (makecol_bytes _ _ _ _ hc4r hc4g hc4b h255).2.2.1
    · exact (makecol_bytes _ _ _ _ hc4r hc4g hc4b h255).2.1
    · exact (makecol_bytes _ _ _ _ hc4r hc4g hc4b h255).1
  · intro h
    rw [dxt1Colors_neg blk h]
    have havgr : 0 ≤ (dxt1Red blk.color1 + dxt1Red blk.color2 + 1) / 2 ∧
        (dxt1Red blk.color1 + dxt1Red blk.color2 + 1) / 2 ≤ 255 := by omega
    have havgg : 0 ≤ (dxt1Green blk.color1 + dxt1Green blk.color2 + 1) / 2 ∧
        (dxt1Green blk.color1 + dxt1Green blk.color2 + 1) / 2 ≤ 255 := by omega
    have havgb : 0 ≤ (dxt1Blue blk.color1 + dxt1Blue blk.color2 + 1) / 2 ∧
        (dxt1Blue blk.color1 + dxt1Blue blk.color2 + 1) / 2 ≤ 255 := by omega
    refine ⟨?_, ?_, ?_, ?_, ?_, ?_, ?_, ?_⟩ <;>
      simp only [List.getD_cons_zero, List.getD_cons_succ]
    · exact (makecol_bytes _ _ _ _ havgr havgg havgb h255).2.2.2
    · exact (makecol_bytes _ _ _ _ hr2 hg2 hb2 h0).2.2.2
    · exact (makecol_bytes _ _ _ _ havgr havgg havgb h255).2.2.1
    · exact (makecol_bytes _ _ _ _ havgr havgg havgb h255).2.1
    · exact (makecol_bytes _ _ _ _ havgr havgg havgb h255).1
    · exact (makecol_bytes _ _ _ _ hr2 hg2 hb2 h0).2.2.1
    · exact (makecol_bytes _ _ _ _ hr2 hg2 hb2 h0).2.1
    · exact (makecol_bytes _ _ _ _ hr2 hg2 hb2 h0).1

/-- Witness for C6's amended theorem at a concrete block and texel. -/
theorem dxt1_decode_characterization_witness :
    dxt1Pixel { lines := [228, 27, 0, 0], color1 := 0x4000, color2 := 0 } false 1 0 =
      (dxt1Colors { lines := [228, 27, 0, 0], color1 := 0x4000, color2 := 0 } false).getD
        ((({ lines := [228, 27, 0, 0], color1 := 0x4000, color2 := 0 } :
            DXT1Block).lines.getD 0 0 >>> (2 * 1)) &&& 3) 0 ∧
    (({ lines := [228, 27, 0, 0], color1 := 0x4000, color2 := 0 } : DXT1Block).color2 <
        ({ lines := [228, 27, 0, 0], color1 := 0x4000, color2 := 0 } : DXT1Block).color1 →
      (∀ i, i < 4 →
        pixAlpha ((dxt1Colors { lines := [228, 27, 0, 0], color1 := 0x4000, color2 := 0 }
          false).getD i 0) = 255) ∧
      pixRed ((dxt1Colors { lines := [228, 27, 0, 0], color1 := 0x4000, color2 := 0 }
          false).getD 2 0) = specC3 (dxt1Red 0x4000) (dxt1Red 0) ∧
      pixGreen ((dxt1Colors { lines := [228, 27, 0, 0], color1 := 0x4000, color2 := 0 }
          false).getD 2 0) = specC3 (dxt1Green 0x4000) (dxt1Green 0) ∧
      pixBlue ((dxt1Colors { lines := [228, 27, 0, 0], color1 := 0x4000, color2 := 0 }
          false).getD 2 0) = specC3 (dxt1Blue 0x4000) (dxt1Blue 0) ∧
      pixRed ((dxt1Colors { lines := [228, 27, 0, 0], color1 := 0x4000, color2 := 0 }
          false).getD 3 0) = specC4 (dxt1Red 0x4000) (dxt1Red 0) ∧
      pixGreen ((dxt1Colors { lines := [228, 27, 0, 0], color1 := 0x4000, color2 := 0 }
          false).getD 3 0) = specC4 (dxt1Green 0x4000) (dxt1Green 0) ∧
      pixBlue ((dxt1Colors { lines := [228, 27, 0, 0], color1 := 0x4000, color2 := 0 }
          false).getD 3 0) = specC4 (dxt1Blue 0x4000) (dxt1Blue 0)) ∧
    (¬ ({ lines := [228, 27, 0, 0], color1 := 0x4000, color2 := 0 } : DXT1Block).color2 <
        ({ lines := [228, 27, 0, 0], color1 := 0x4000, color2 := 0 } : DXT1Block).color1 →
      pixAlpha ((dxt1Colors { lines := [228, 27, 0, 0], color1 := 0x4000, color2 := 0 }
          false).getD 2 0) = 255 ∧
      pixAlpha ((dxt1Colors { lines := [228, 27, 0, 0], color1 := 0x4000, color2 := 0 }
          false).getD 3 0) = 0 ∧
      pixRed ((dxt1Colors { lines := [228, 27, 0, 0], color1 := 0x4000, color2 := 0 }
          false).getD 2 0) = (dxt1Red 0x4000 + dxt1Red 0 + 1) / 2 ∧
      pixGreen ((dxt1Colors { lines := [228, 27, 0, 0], color1 := 0x4000, color2 := 0 }
          false).getD 2 0) = (dxt1Green 0x4000 + dxt1Green 0 + 1) / 2 ∧
      pixBlue ((dxt1Colors { lines := [228, 27, 0, 0], color1 := 0x4000, color2 := 0 }
          false).getD 2 0) = (dxt1Blue 0x4000 + dxt1Blue 0 + 1) / 2 ∧
      pixRed ((dxt1Colors { lines := [228, 27, 0, 0], color1 := 0x4000, color2 := 0 }
          false).getD 3 0) = dxt1Red 0 ∧
      pixGreen ((dxt1Colors { lines := [228, 27, 0, 0], color1 := 0x4000, color2 := 0 }
          false).getD 3 0) = dxt1Green 0 ∧
      pixBlue ((dxt1Colors { lines := [228, 27, 0, 0], color1 := 0x4000, color2 := 0 }
          false).getD 3 0) = dxt1Blue 0) :=
  dxt1_decode_characterization { lines := [228, 27, 0, 0], color1 := 0x4000, color2 := 0 }
    1 0 (by decide) (by decide)

end PPSSPP
